import Mathlib

/-!
Shallow embedding of the `BitPluginAvatar` avatar-resolution pipeline of the
dotbit.js repository.  Pure string/byte manipulation from the source (and the
`@ethersproject` helpers it calls: `hexDataSlice`, `hexZeroPad`, `hexConcat`,
`BigNumber.from`, `toUtf8String`) is translated into executable Lean
definitions; the external collaborators (the record/info fetchers, the JSON-RPC
provider, the address formatter, the HTTP fetcher) are modelled as oracle
fields of an `Env` structure returning `Except`, a thrown exception being the
`.error` case.  The `try/catch` at the pipeline boundary becomes a `match`
collapsing `.error` to `none`.
-/

set_option maxHeartbeats 1600000
set_option maxRecDepth 100000

namespace DotbitAvatar

deriving instance DecidableEq for Except

/-- One linkage step `{ type, content }` of the provenance trail. -/
structure LinkageStep where
  type : String
  content : String
deriving DecidableEq, Repr

/-- Successful avatar resolution result `{ linkage, url }`. -/
structure ResolvedAvatar where
  linkage : List LinkageStep
  url : String
deriving DecidableEq, Repr

/-- Explicit bind on `Except String`, mirroring sequential statements whose
exceptions propagate to the enclosing `try`. -/
def exBind {α β : Type} (x : Except String α) (f : α → Except String β) : Except String β :=
  match x with
  | .error e => .error e
  | .ok a => f a

/-- Hex digit test, as the character class `[0-9A-Fa-f]`. -/
def isHexDigitB (c : Char) : Bool :=
  (('0' ≤ c) && (c ≤ '9')) || (('a' ≤ c) && (c ≤ 'f')) || (('A' ≤ c) && (c ≤ 'F'))

/-- Value of a hex digit (0 for non-digits; guarded by `isHexDigitB` at use sites). -/
def hexDigitVal (c : Char) : Nat :=
  if ('0' ≤ c) && (c ≤ '9') then c.toNat - 48
  else if ('a' ≤ c) && (c ≤ 'f') then c.toNat - 87
  else if ('A' ≤ c) && (c ≤ 'F') then c.toNat - 55
  else 0

/-- Big-endian value of a hex digit sequence (empty sequence denotes 0,
matching `BigNumber.from "0x"`). -/
def hexVal (l : List Char) : Nat := l.foldl (fun a c => a * 16 + hexDigitVal c) 0

/-- Lowercase hex digit character for a value `< 16`. -/
def hexDigitChar (n : Nat) : Char := if n < 10 then Char.ofNat (48 + n) else Char.ofNat (87 + n)

/-- Hex digit emission loop; the value shrinks by a factor 16 each step, so a
fuel of at least `n + 1` makes this the unbounded loop. -/
def natToHexDigitsAux : Nat → Nat → List Char
  | 0, _ => []
  | fuel + 1, n =>
    if n < 16 then [hexDigitChar n]
    else natToHexDigitsAux fuel (n / 16) ++ [hexDigitChar (n % 16)]

/-- Minimal lowercase hex representation of a natural number. -/
def natToHexDigits (n : Nat) : List Char := natToHexDigitsAux (n + 1) n

/-- ASCII lowercase of a character list, modelling `String.prototype.toLowerCase`
and the `/i` regex flag on the ASCII tokens the source compares. -/
def lowerL (l : List Char) : List Char := l.map Char.toLower

/-- ASCII-lowercased string (`scheme = match[1].toLowerCase()`). -/
def lowerStr (s : String) : String := String.mk (lowerL s.data)

/-- Case-insensitive anchored test that `s` begins with `p`, modelling the
source's anchored `/^…/i` regex matches on literal tokens. -/
def startsWithCI (s p : String) : Bool := lowerL (s.data.take p.data.length) == lowerL p.data

/-- The `isHexString` check of `@ethersproject/bytes`: a `0x` header followed by
hex digits only. -/
def isHexStr (s : String) : Bool :=
  (s.data.take 2 == ['0', 'x']) && (s.data.drop 2).all isHexDigitB

/-- `hexDataSlice(value, off, endOff)` of `@ethersproject/bytes`: validate the
hex string (even digit count), then slice at byte offsets; JavaScript
`substring` clamps out-of-range indices exactly as `List.drop`/`List.take` do. -/
def hexDataSlice (value : String) (off endOff : Nat) : Except String String :=
  if isHexStr value && decide (value.data.length % 2 = 0) then
    .ok ("0x" ++ String.mk (((value.data.drop 2).drop (2 * off)).take (2 * endOff - 2 * off)))
  else .error "invalid hexData value"

/-- `BigNumber.from(hexWord).toNumber()` on a slice that is already a valid hex
string: read the big-endian value, failing (as BN.js does) beyond 53 bits. -/
def bigNumberHexToNumber (s : String) : Except String Nat :=
  let v := hexVal (s.data.drop 2)
  if v < 2 ^ 53 then .ok v else .error "overflow"

/-- `_parseBytes(result, start)`: the `0x` sentinel yields no value; otherwise
read the offset word at `start`, the length word at `offset`, and the raw bytes
at `offset + 32`.  Errors raised by the helpers propagate (the source lets them
escape to `_parseString`'s `try`). -/
def _parseBytes (result : String) (start : Nat) : Except String (Option String) :=
  if result = "0x" then .ok none
  else
    exBind (hexDataSlice result start (start + 32)) fun w1 =>
    exBind (bigNumberHexToNumber w1) fun offset =>
    exBind (hexDataSlice result offset (offset + 32)) fun w2 =>
    exBind (bigNumberHexToNumber w2) fun len =>
    exBind (hexDataSlice result (offset + 32) (offset + 32 + len)) fun bytes =>
    .ok (some bytes)

/-- UTF-8 encoding of one Unicode scalar value, per byte-count case. -/
def utf8EncodeChar (c : Char) : List Nat :=
  if c.toNat < 0x80 then [c.toNat]
  else if c.toNat < 0x800 then [0xC0 + c.toNat / 64, 0x80 + c.toNat % 64]
  else if c.toNat < 0x10000 then
    [0xE0 + c.toNat / 4096, 0x80 + (c.toNat / 64) % 64, 0x80 + c.toNat % 64]
  else
    [0xF0 + c.toNat / 262144, 0x80 + (c.toNat / 4096) % 64, 0x80 + (c.toNat / 64) % 64,
      0x80 + c.toNat % 64]

/-- UTF-8 encoding of a string as a byte sequence. -/
def utf8Encode (s : String) : List Nat := (s.data.map utf8EncodeChar).flatten

/-- UTF-8 continuation-byte test (`10xxxxxx`). -/
def contB (b : Nat) : Bool := (0x80 ≤ b) && (b < 0xC0)

/-- Scalar value of a two-byte UTF-8 sequence, rejecting bad continuation
bytes and overlong encodings. -/
def seq2 (b0 b1 : Nat) : Option Nat :=
  if contB b1 then
    if (b0 - 0xC0) * 64 + (b1 - 0x80) < 0x80 then none
    else some ((b0 - 0xC0) * 64 + (b1 - 0x80))
  else none

/-- Scalar value of a three-byte UTF-8 sequence, rejecting bad continuation
bytes, overlong encodings and surrogates. -/
def seq3 (b0 b1 b2 : Nat) : Option Nat :=
  if contB b1 && contB b2 then
    if (b0 - 0xE0) * 4096 + (b1 - 0x80) * 64 + (b2 - 0x80) < 0x800
        || (decide (0xD800 ≤ (b0 - 0xE0) * 4096 + (b1 - 0x80) * 64 + (b2 - 0x80))
            && decide ((b0 - 0xE0) * 4096 + (b1 - 0x80) * 64 + (b2 - 0x80) < 0xE000)) then none
    else some ((b0 - 0xE0) * 4096 + (b1 - 0x80) * 64 + (b2 - 0x80))
  else none

/-- Scalar value of a four-byte UTF-8 sequence, rejecting bad continuation
bytes, overlong encodings and out-of-range scalars. -/
def seq4 (b0 b1 b2 b3 : Nat) : Option Nat :=
  if contB b1 && contB b2 && contB b3 then
    if (b0 - 0xF0) * 262144 + (b1 - 0x80) * 4096 + (b2 - 0x80) * 64 + (b3 - 0x80) < 0x10000
        || 0x110000 ≤ (b0 - 0xF0) * 262144 + (b1 - 0x80) * 4096 + (b2 - 0x80) * 64 + (b3 - 0x80)
    then none
    else some ((b0 - 0xF0) * 262144 + (b1 - 0x80) * 4096 + (b2 - 0x80) * 64 + (b3 - 0x80))
  else none

/-- Decode one UTF-8 scalar from the head byte `b0` and the remaining bytes,
returning the scalar and the unconsumed remainder. -/
def utf8Step (b0 : Nat) (t0 : List Nat) : Option (Nat × List Nat) :=
  if b0 < 0x80 then some (b0, t0)
  else if b0 < 0xC0 then none
  else if b0 < 0xE0 then
    match t0 with
    | b1 :: t1 => (seq2 b0 b1).map (fun v => (v, t1))
    | [] => none
  else if b0 < 0xF0 then
    match t0 with
    | b1 :: b2 :: t2 => (seq3 b0 b1 b2).map (fun v => (v, t2))
    | _ => none
  else if b0 < 0xF8 then
    match t0 with
    | b1 :: b2 :: b3 :: t3 => (seq4 b0 b1 b2 b3).map (fun v => (v, t3))
    | _ => none
  else none

/-- Strict UTF-8 decoder loop.  One scalar consumes at least one byte, so a
`fuel` that is at least the byte count never reaches the `0, _ :: _` arm; the
wrapper below passes the byte count as fuel, making this the unbounded
decoding loop of `toUtf8String` (errors as `none`). -/
def utf8DecodeAux : Nat → List Nat → Option (List Char)
  | _, [] => some []
  | 0, _ :: _ => none
  | fuel + 1, b0 :: t0 =>
    match utf8Step b0 t0 with
    | none => none
    | some vr => (utf8DecodeAux fuel vr.2).map (Char.ofNat vr.1 :: ·)

/-- Strict UTF-8 decoder: rejects stray/overlong sequences, surrogates and
out-of-range scalars, as `toUtf8String`'s default error handling throws. -/
def utf8DecodeList (l : List Nat) : Option (List Char) := utf8DecodeAux l.length l

/-- Parse a hex digit sequence two digits at a time into bytes (the `arrayify`
step of `toUtf8String`); odd length or a non-digit fails. -/
def hexPairsToBytes : List Char → Option (List Nat)
  | [] => some []
  | c1 :: c2 :: rest =>
    if isHexDigitB c1 && isHexDigitB c2 then
      (hexPairsToBytes rest).map ((hexDigitVal c1 * 16 + hexDigitVal c2) :: ·)
    else none
  | [_] => none

/-- `toUtf8String` of `@ethersproject/strings` applied to a hex data string:
`arrayify` the hex (requiring a valid even-length `0x` string), then UTF-8
decode; any failure is an exception, modelled as `none` here because the sole
caller (`_parseString`) catches it. -/
def toUtf8StringHex (bytesHex : String) : Option String :=
  if isHexStr bytesHex && decide (bytesHex.data.length % 2 = 0) then
    match hexPairsToBytes (bytesHex.data.drop 2) with
    | some bs => (utf8DecodeList bs).map String.mk
    | none => none
  else none

/-- `_parseString(result, start)`: `toUtf8String(_parseBytes(result, start))`
inside a `try` that returns `null` on any failure, including
`toUtf8String(null)` throwing on the sentinel case. -/
def _parseString (result : String) (start : Nat) : Option String :=
  match _parseBytes result start with
  | .error _ => none
  | .ok none => none
  | .ok (some bytes) => toUtf8StringHex bytes

/-- Default public gateway of the plugin (`ipfs = 'https://gateway.ipfs.io'`). -/
def defaultGateway : String := "https://gateway.ipfs.io"

/-- `getIpfsLink(link, gateway)`: strip `ipfs://ipfs/` (12 characters) or else
`ipfs://` (7 characters), case-insensitively anchored; otherwise throw
`unsupported IPFS format`; return `{gateway}/ipfs/{remainder}`. -/
def getIpfsLink (link : String) (gateway : String := defaultGateway) : Except String String :=
  if startsWithCI link "ipfs://ipfs/" then
    .ok (gateway ++ "/ipfs/" ++ String.mk (link.data.drop 12))
  else if startsWithCI link "ipfs://" then
    .ok (gateway ++ "/ipfs/" ++ String.mk (link.data.drop 7))
  else .error ("unsupported IPFS format " ++ link)

/-- JavaScript `String.prototype.split('/')`: cut at every slash, keeping
empty pieces, the empty string yielding `[""]`. -/
def splitOnSlashAux : List Char → List Char → List String
  | [], acc => [String.mk acc.reverse]
  | c :: rest, acc =>
    if c = '/' then String.mk acc.reverse :: splitOnSlashAux rest []
    else splitOnSlashAux rest (c :: acc)

/-- Split a string at `/` as `comps = (match[2] || '').split('/')` does. -/
def splitOnSlash (s : String) : List String := splitOnSlashAux s.data []

/-- `hexConcat(items)`: concatenation of the digit parts under one `0x` header
(every argument the source passes is already a validated hex data string). -/
def hexConcat (items : List String) : String :=
  "0x" ++ String.mk ((items.map (fun s => s.data.drop 2)).flatten)

/-- `hexZeroPad(value, nBytes)` of `@ethersproject/bytes`: require a hex
string, fail when longer than `nBytes` bytes, else left-pad with zeros. -/
def hexZeroPadStr (s : String) (nBytes : Nat) : Except String String :=
  if isHexStr s then
    if 2 * nBytes + 2 < s.data.length then .error "value out of range"
    else .ok ("0x" ++ String.mk (List.replicate (2 * nBytes + 2 - s.data.length) '0' ++ s.data.drop 2))
  else .error "invalid hex string"

/-- `BigNumber.toHexString()`: minimal lowercase hex padded to an even digit
count, with a `0x` header. -/
def toHexStringEven (n : Nat) : String :=
  let d := natToHexDigits n
  "0x" ++ String.mk (if d.length % 2 = 1 then '0' :: d else d)

/-- The padded token id `hexZeroPad(BigNumber.from(tokenId).toHexString(), 32)`. -/
def tokenIdWord (n : Nat) : Except String String := hexZeroPadStr (toHexStringEven n) 32

/-- Decimal digit test, the character class `[0-9]`. -/
def isDigitB (c : Char) : Bool := ('0' ≤ c) && (c ≤ '9')

/-- Value of a decimal digit sequence. -/
def decDigitsVal (l : List Char) : Nat := l.foldl (fun a c => a * 10 + (c.toNat - 48)) 0

/-- `BigNumber.from` on a string: hex (`0x…`), negated hex (`-0x…`), or decimal
(`-?[0-9]+`); anything else throws. -/
def bigNumberFromStr (s : String) : Except String Int :=
  if isHexStr s then .ok (Int.ofNat (hexVal (s.data.drop 2)))
  else if (s.data.headD ' ' = '-') && isHexStr (String.mk (s.data.drop 1)) then
    .ok (-(Int.ofNat (hexVal (s.data.drop 3))))
  else if decide (s.data ≠ []) && s.data.all isDigitB then
    .ok (Int.ofNat (decDigitsVal s.data))
  else if (s.data.headD ' ' = '-') && decide (s.data.drop 1 ≠ []) && (s.data.drop 1).all isDigitB then
    .ok (-(Int.ofNat (decDigitsVal (s.data.drop 1))))
  else .error "invalid BigNumber string value"

/-- First index at which `pat` occurs in `l` (`String.prototype.indexOf`). -/
def subIndex (l pat : List Char) : Option Nat :=
  if pat.isPrefixOf l then some 0
  else
    match l with
    | [] => none
    | _ :: t => (subIndex t pat).map (· + 1)

/-- `String.prototype.replace` with a plain string pattern: replace the first
occurrence only; the identity when the pattern does not occur. -/
def replaceFirst (s pat repl : String) : String :=
  match subIndex s.data pat.data with
  | none => s
  | some i => String.mk (s.data.take i ++ repl.data ++ s.data.drop (i + pat.data.length))

/-- Characters matched by an unflagged JavaScript regex `.`: everything except
the four line terminators. -/
def dotOk (c : Char) : Bool := !(c = '\n' || c = '\r' || c.toNat = 0x2028 || c.toNat = 0x2029)

/-- Whether `(.*)$` can cover `l` (no line terminator present). -/
def noNl (l : List Char) : Bool := l.all dotOk

/-- Match against `/^(https):\/\/(.*)$/i`, returning the two captured groups. -/
def matchHttps (s : String) : Option (String × String) :=
  if startsWithCI s "https://" && noNl (s.data.drop 8) then
    some (String.mk (s.data.take 5), String.mk (s.data.drop 8))
  else none

/-- Match against `/^(data):(.*)$/i`. -/
def matchData (s : String) : Option (String × String) :=
  if startsWithCI s "data:" && noNl (s.data.drop 5) then
    some (String.mk (s.data.take 4), String.mk (s.data.drop 5))
  else none

/-- Match against `matcherIpfs = /^(ipfs):\/\/(.*)$/i`. -/
def matchIpfs (s : String) : Option (String × String) :=
  if startsWithCI s "ipfs://" && noNl (s.data.drop 7) then
    some (String.mk (s.data.take 4), String.mk (s.data.drop 7))
  else none

/-- Match against `/^eip155:[0-9]+\/(erc[0-9]+):(.*)$/i`; group 1 is the
`erc[0-9]+` text as written, group 2 the remainder after the colon. -/
def matchEip155 (s : String) : Option (String × String) :=
  let l := s.data
  if lowerL (l.take 7) = "eip155:".data then
    let r1 := l.drop 7
    let d1 := r1.takeWhile isDigitB
    if d1 = [] then none
    else
      match r1.drop d1.length with
      | '/' :: r3 =>
        if lowerL (r3.take 3) = "erc".data then
          let d2 := (r3.drop 3).takeWhile isDigitB
          if d2 = [] then none
          else
            match r3.drop (3 + d2.length) with
            | ':' :: rest =>
              if noNl rest then some (String.mk (r3.take (3 + d2.length)), String.mk rest)
              else none
            | _ => none
        else none
      | _ => none
  else none

/-- Identifiers of the four entries of the `matchers` array, in order. -/
inductive MatcherId
  | httpsM
  | dataM
  | ipfsM
  | eip155M
deriving DecidableEq, Repr

/-- `avatar.match(matchers[i])` for each entry. -/
def tryMatch : MatcherId → String → Option (String × String)
  | .httpsM, s => matchHttps s
  | .dataM, s => matchData s
  | .ipfsM, s => matchIpfs s
  | .eip155M, s => matchEip155 s

/-- The `matchers` array order: https, data, ipfs, eip155. -/
def matcherOrder : List MatcherId := [.httpsM, .dataM, .ipfsM, .eip155M]

/-- The `typeof metadata.image` distinction the source makes. -/
inductive JsonImage
  | str (s : String)
  | nonString
deriving DecidableEq, Repr

/-- A fetched metadata document: its `image` field (absent, string, or
non-string) and its `JSON.stringify` rendering used as linkage content. -/
structure Metadata where
  image : Option JsonImage
  stringified : String
deriving DecidableEq, Repr

/-- External collaborators of one resolution run, as response oracles; `.error`
models a thrown exception.  `info` yields the account's `owner_key` (with
`none` covering a missing account or key, and the empty string a falsy key);
`records` yields the values of the `profile.avatar` record list. -/
structure Env where
  account : String
  info : Except String (Option String)
  records : Except String (List String)
  formatAddress : String → Except String String
  callAddress : String → Except String String
  parseTokenId : String → Except String Nat
  call : String → String → Except String String
  fetchJson : String → Except String (Option Metadata)

/-- The `erc721`/`erc1155` case of the scheme switch (source lines 114-209):
ownership or balance verification, metadata-URI call and decode, `{id}`
templating, IPFS translation, metadata fetch, and image extraction. -/
def ercBranch (gw owner avatar scheme g2 : String) (linkage0 : List LinkageStep) (env : Env) :
    Except String (Option ResolvedAvatar) :=
  let selector := if scheme = "erc721" then "0xc87b56dd" else "0x0e89341c"
  let linkage1 := linkage0 ++ [⟨scheme, avatar⟩]
  let comps := splitOnSlash g2
  if comps.length ≠ 2 then .ok none
  else
    exBind (env.formatAddress (comps.headD "")) fun addr =>
    exBind (env.parseTokenId (comps.getD 1 "")) fun tn =>
    exBind (tokenIdWord tn) fun tokenId =>
    exBind
      (if scheme = "erc721" then
        exBind (env.call addr (hexConcat ["0x6352211e", tokenId])) fun ret =>
        exBind (env.callAddress ret) fun tokenOwner =>
        .ok (if owner ≠ tokenOwner then none
             else some (linkage1 ++ [⟨"owner", tokenOwner⟩]))
      else
        exBind (hexZeroPadStr owner 32) fun ownerPad =>
        exBind (env.call addr (hexConcat ["0x00fdd58e", ownerPad, tokenId])) fun ret =>
        exBind (bigNumberFromStr ret) fun balance =>
        .ok (if balance = 0 then none
             else some (linkage1 ++ [⟨"balance", toString balance⟩])))
      fun linkOwned =>
    match linkOwned with
    | none => .ok none
    | some linkage2 =>
      exBind (env.formatAddress (comps.headD "")) fun addr2 =>
      exBind (env.call addr2 (hexConcat [selector, tokenId])) fun ret2 =>
      match _parseString ret2 0 with
      | none => .ok none
      | some mu0 =>
        let linkage3 := linkage2 ++ [⟨"metadata-url-base", mu0⟩]
        let mu1 := if scheme = "erc1155" then
            replaceFirst mu0 "{id}" (String.mk (tokenId.data.drop 2)) else mu0
        let linkage4 := if scheme = "erc1155" then
            linkage3 ++ [⟨"metadata-url-expanded", mu1⟩] else linkage3
        exBind (if startsWithCI mu1 "ipfs:" then getIpfsLink mu1 gw else .ok mu1) fun mu2 =>
        let linkage5 := linkage4 ++ [⟨"metadata-url", mu2⟩]
        exBind (env.fetchJson mu2) fun mOpt =>
        match mOpt with
        | none => .ok none
        | some md =>
          let linkage6 := linkage5 ++ [⟨"metadata", md.stringified⟩]
          match md.image with
          | some (JsonImage.str imageUrl) =>
            if startsWithCI imageUrl "https://" || startsWithCI imageUrl "data:" then
              .ok (some ⟨linkage6 ++ [⟨"url", imageUrl⟩], imageUrl⟩)
            else
              match matchIpfs imageUrl with
              | none => .ok none
              | some _ =>
                let linkage7 := linkage6 ++ [⟨"url-ipfs", imageUrl⟩]
                exBind (getIpfsLink imageUrl) fun imageUrl2 =>
                .ok (some ⟨linkage7 ++ [⟨"url", imageUrl2⟩], imageUrl2⟩)
          | _ => .ok none

/-- The matcher loop (source lines 93-211): first matching pattern dispatches
on the lowercased scheme; a matched scheme outside the switch cases falls
through and the loop continues. -/
def avatarLoop (gw owner avatar : String) (linkage : List LinkageStep) (env : Env) :
    List MatcherId → Except String (Option ResolvedAvatar)
  | [] => .ok none
  | m :: rest =>
    match tryMatch m avatar with
    | none => avatarLoop gw owner avatar linkage env rest
    | some (g1, g2) =>
      let scheme := lowerStr g1
      if scheme = "https" then .ok (some ⟨linkage ++ [⟨"url", avatar⟩], avatar⟩)
      else if scheme = "data" then .ok (some ⟨linkage ++ [⟨"data", avatar⟩], avatar⟩)
      else if scheme = "ipfs" then
        exBind (getIpfsLink avatar gw) fun u => .ok (some ⟨linkage ++ [⟨"ipfs", avatar⟩], u⟩)
      else if scheme = "erc721" || scheme = "erc1155" then
        ercBranch gw owner avatar scheme g2 linkage env
      else avatarLoop gw owner avatar linkage env rest

/-- The body of the `try` block of `bitAccount.avatar` (source lines 81-211):
fetch the account info, require a truthy owner key, fetch the first
`profile.avatar` record value, require it truthy, then run the matcher loop.
A returned `none` is the source's explicit `return null`. -/
def avatarBody (gw : String) (env : Env) : Except String (Option ResolvedAvatar) :=
  let linkage : List LinkageStep := [⟨"account", env.account⟩]
  exBind env.info fun ownerOpt =>
  match ownerOpt with
  | none => .ok none
  | some owner =>
    if owner = "" then .ok none
    else
      exBind env.records fun vals =>
      match vals with
      | [] => .ok none
      | avatarRec :: _ =>
        if avatarRec = "" then .ok none
        else avatarLoop gw owner avatarRec linkage env matcherOrder

/-- The public `avatar` operation: the `try/catch` boundary collapsing every
exception to `null`. -/
def avatar (gw : String) (env : Env) : Option ResolvedAvatar :=
  match avatarBody gw env with
  | .error _ => none
  | .ok r => r

/-- Gateway configuration of `BitPluginAvatar`'s constructor: a truthy
`ipfsGateway` option overrides the default public gateway. -/
def pluginIpfs (ipfsGateway : Option String) : String :=
  match ipfsGateway with
  | some g => if g = "" then defaultGateway else g
  | none => defaultGateway

/-- Replace the responses of `env.call` for one specific calldata `d` by `f`,
leaving every other collaborator untouched; used to express that a call with
calldata `d` is never issued (the outcome does not depend on its response). -/
def overrideCall (env : Env) (d : String) (f : String → String → Except String String) : Env :=
  { env with call := fun dest data => if data = d then f dest data else env.call dest data }

/-- ABI encoding of a string as a dynamic value at word offset 0: a 32-byte
offset word (pointing at 32), a 32-byte length word, then the raw UTF-8 bytes. -/
def wordHexChars (n : Nat) : List Char :=
  List.replicate (64 - (natToHexDigits n).length) '0' ++ natToHexDigits n

/-- Hex rendering of one byte, two lowercase digits. -/
def byteToHexChars (b : Nat) : List Char := [hexDigitChar (b / 16), hexDigitChar (b % 16)]

/-- Hex rendering of a byte sequence. -/
def bytesToHexChars (bs : List Nat) : List Char := (bs.map byteToHexChars).flatten

/-- The ABI-encoded return buffer for a dynamic string value at offset 0. -/
def abiEncodeString (s : String) : String :=
  "0x" ++ String.mk (wordHexChars 32 ++ wordHexChars (utf8Encode s).length
    ++ bytesToHexChars (utf8Encode s))

/-! Concrete environments used to evaluate the pipeline at specific inputs.
An oracle a scenario never consults is set to a thrown error, so that any
accidental consultation would surface as `Unresolved` rather than succeed. -/

/-- The 32-byte token word for tokenId 7. -/
def tidSeven : String := "0x0000000000000000000000000000000000000000000000000000000000000007"

/-- The 32-byte token word for tokenId 5. -/
def tidFive : String := "0x0000000000000000000000000000000000000000000000000000000000000005"

/-- The 32-byte padded owner key `0xab`. -/
def padAb : String := "0x00000000000000000000000000000000000000000000000000000000000000ab"

/-- Account with no owner key. -/
def envMissingOwner : Env := {
  account := "norma.bit"
  info := .ok none
  records := .error "not consulted"
  formatAddress := fun _ => .error "not consulted"
  callAddress := fun _ => .error "not consulted"
  parseTokenId := fun _ => .error "not consulted"
  call := fun _ _ => .error "not consulted"
  fetchJson := fun _ => .error "not consulted"
}

/-- Account whose avatar record is a direct https url. -/
def envHttpsRec : Env := {
  account := "alice.bit"
  info := .ok (some "0xab")
  records := .ok ["https://example.com/a.png"]
  formatAddress := fun _ => .error "not consulted"
  callAddress := fun _ => .error "not consulted"
  parseTokenId := fun _ => .error "not consulted"
  call := fun _ _ => .error "not consulted"
  fetchJson := fun _ => .error "not consulted"
}

/-- Account whose avatar record is a `data:` url. -/
def envDataRec : Env := {
  account := "carol.bit"
  info := .ok (some "0xab")
  records := .ok ["data:image/png;base64,abc"]
  formatAddress := fun _ => .error "not consulted"
  callAddress := fun _ => .error "not consulted"
  parseTokenId := fun _ => .error "not consulted"
  call := fun _ _ => .error "not consulted"
  fetchJson := fun _ => .error "not consulted"
}

/-- ERC-721 account whose owner key `0xab` differs from the decoded `ownerOf`
address `0xAB` only in letter case; every later stage could succeed. -/
def envCase : Env := {
  account := "dana.bit"
  info := .ok (some "0xab")
  records := .ok ["eip155:1/erc721:0xcc/7"]
  formatAddress := fun c => .ok c
  callAddress := fun _ => .ok "0xAB"
  parseTokenId := fun c => if c = "7" then .ok 7 else .error "NaN"
  call := fun _ d =>
    if d = hexConcat ["0x6352211e", tidSeven] then .ok "0xownerword"
    else if d = hexConcat ["0xc87b56dd", tidSeven] then
      .ok (abiEncodeString "https://img.example/7.json")
    else .error "unexpected call"
  fetchJson := fun u =>
    if u = "https://img.example/7.json" then
      .ok (some ⟨some (JsonImage.str "https://img.example/a.png"), "md"⟩)
    else .error "unexpected fetch"
}

/-- The same account with `ownerOf` answering in the owner key's exact case. -/
def envCaseOk : Env := { envCase with callAddress := fun _ => .ok "0xab" }

/-- ERC-721 account resolved against a configured gateway `https://dweb.link`:
`tokenURI` yields an IPFS metadata URI and the metadata image is an IPFS URI. -/
def envGw : Env := {
  account := "erin.bit"
  info := .ok (some "0xab")
  records := .ok ["eip155:1/erc721:0xcc/7"]
  formatAddress := fun c => .ok c
  callAddress := fun _ => .ok "0xab"
  parseTokenId := fun c => if c = "7" then .ok 7 else .error "NaN"
  call := fun _ d =>
    if d = hexConcat ["0x6352211e", tidSeven] then .ok "0xownerword"
    else if d = hexConcat ["0xc87b56dd", tidSeven] then .ok (abiEncodeString "ipfs://QmMeta")
    else .error "unexpected call"
  fetchJson := fun u =>
    if u = "https://dweb.link/ipfs/QmMeta" then
      .ok (some ⟨some (JsonImage.str "ipfs://QmImg"), "md"⟩)
    else .error "unexpected fetch"
}

/-- Account whose avatar record is a direct `ipfs://` reference. -/
def envIpfsDirect : Env := {
  account := "bob.bit"
  info := .ok (some "0xab")
  records := .ok ["ipfs://QmDirect"]
  formatAddress := fun _ => .error "not consulted"
  callAddress := fun _ => .error "not consulted"
  parseTokenId := fun _ => .error "not consulted"
  call := fun _ _ => .error "not consulted"
  fetchJson := fun _ => .error "not consulted"
}

/-- The end-to-end ERC-721 account of the spec: owner key equal to the
`ownerOf` result, `tokenURI` yielding `ipfs://Qm123`, metadata image
`ipfs://QmImg`, resolved against the default gateway. -/
def envE2E : Env := {
  account := "jeffx.bit"
  info := .ok (some "0xab")
  records := .ok ["eip155:1/erc721:0xcc/7"]
  formatAddress := fun c => .ok c
  callAddress := fun _ => .ok "0xab"
  parseTokenId := fun c => if c = "7" then .ok 7 else .error "NaN"
  call := fun _ d =>
    if d = hexConcat ["0x6352211e", tidSeven] then .ok "0xownerword"
    else if d = hexConcat ["0xc87b56dd", tidSeven] then .ok (abiEncodeString "ipfs://Qm123")
    else .error "unexpected call"
  fetchJson := fun u =>
    if u = "https://gateway.ipfs.io/ipfs/Qm123" then
      .ok (some ⟨some (JsonImage.str "ipfs://QmImg"), "md"⟩)
    else .error "unexpected fetch"
}

/-- ERC-1155 account whose `balanceOf` answer decodes to zero. -/
def envZero : Env := {
  account := "fred.bit"
  info := .ok (some "0xab")
  records := .ok ["eip155:1/erc1155:0xcc/5"]
  formatAddress := fun c => .ok c
  callAddress := fun _ => .error "not consulted"
  parseTokenId := fun c => if c = "5" then .ok 5 else .error "NaN"
  call := fun _ d =>
    if d = hexConcat ["0x00fdd58e", padAb, tidFive] then .ok "0x00"
    else .error "unexpected call"
  fetchJson := fun _ => .error "not consulted"
}

/-- ERC-1155 account with balance 1 whose `uri(tokenId)` result carries the
literal `{id}` template token. -/
def envTmpl : Env := {
  account := "gail.bit"
  info := .ok (some "0xab")
  records := .ok ["eip155:1/erc1155:0xcc/5"]
  formatAddress := fun c => .ok c
  callAddress := fun _ => .error "not consulted"
  parseTokenId := fun c => if c = "5" then .ok 5 else .error "NaN"
  call := fun _ d =>
    if d = hexConcat ["0x00fdd58e", padAb, tidFive] then .ok "0x01"
    else if d = hexConcat ["0x0e89341c", tidFive] then
      .ok (abiEncodeString "https://m/{id}")
    else .error "unexpected call"
  fetchJson := fun _ => .ok (some ⟨some (JsonImage.str "https://i.example/a.png"), "md"⟩)
}

/-! Helper lemmas about the hex and string primitives. -/

theorem hexDigitChar_spec : ∀ m, m < 16 →
    isHexDigitB (hexDigitChar m) = true ∧ hexDigitVal (hexDigitChar m) = m := by decide

theorem strMk_data (s : String) : String.mk s.data = s := rfl

theorem startsWithCI_append (p rest : String) : startsWithCI (p ++ rest) p = true := by
  simp only [startsWithCI, String.data_append, beq_iff_eq]
  rw [List.take_left]

theorem hexVal_append_single (l : List Char) (c : Char) :
    hexVal (l ++ [c]) = hexVal l * 16 + hexDigitVal c := by
  simp [hexVal, List.foldl_append]

theorem natToHexDigitsAux_hex : ∀ fuel n, n < fuel →
    (natToHexDigitsAux fuel n).all isHexDigitB = true := by
  intro fuel
  induction fuel with
  | zero => omega
  | succ fuel ih =>
    intro n h
    rw [natToHexDigitsAux]
    split
    · rename_i h16
      simpa using (hexDigitChar_spec n h16).1
    · rename_i h16
      have hm : n % 16 < 16 := Nat.mod_lt _ (by omega)
      simp only [List.all_append, Bool.and_eq_true]
      exact ⟨ih _ (by omega), by simpa using (hexDigitChar_spec _ hm).1⟩

theorem natToHexDigits_hex (n : Nat) : (natToHexDigits n).all isHexDigitB = true :=
  natToHexDigitsAux_hex (n + 1) n (Nat.lt_succ_self n)

theorem natToHexDigitsAux_val : ∀ fuel n, n < fuel →
    hexVal (natToHexDigitsAux fuel n) = n := by
  intro fuel
  induction fuel with
  | zero => omega
  | succ fuel ih =>
    intro n h
    rw [natToHexDigitsAux]
    split
    · rename_i h16
      simp [hexVal, (hexDigitChar_spec n h16).2]
    · rename_i h16
      have hm : n % 16 < 16 := Nat.mod_lt _ (by omega)
      rw [hexVal_append_single, ih _ (by omega), (hexDigitChar_spec _ hm).2]
      omega

theorem hexVal_natToHexDigits (n : Nat) : hexVal (natToHexDigits n) = n :=
  natToHexDigitsAux_val (n + 1) n (Nat.lt_succ_self n)

theorem natToHexDigitsAux_len : ∀ fuel k n, n < fuel → 1 ≤ k → n < 16 ^ k →
    (natToHexDigitsAux fuel n).length ≤ k := by
  intro fuel
  induction fuel with
  | zero => omega
  | succ fuel ih =>
    intro k n h hk hn
    rw [natToHexDigitsAux]
    split
    · rename_i h16
      simpa using hk
    · rename_i h16
      have hk1 : 1 ≤ k - 1 := by
        by_contra hc
        have hk0 : k = 1 := by omega
        subst hk0
        simp at hn
        omega
      have hpow : 16 ^ k = 16 * 16 ^ (k - 1) := by
        conv_lhs => rw [show k = (k - 1) + 1 from by omega]
        rw [Nat.pow_succ]
        ring
      have h1 : n / 16 < 16 ^ (k - 1) := by
        apply Nat.div_lt_of_lt_mul
        calc n < 16 ^ k := hn
        _ = 16 * 16 ^ (k - 1) := hpow
      have := ih (k - 1) (n / 16) (by omega) hk1 h1
      simp only [List.length_append, List.length_cons, List.length_nil]
      omega

theorem natToHexDigits_len_le (k : Nat) : ∀ n, 1 ≤ k → n < 16 ^ k →
    (natToHexDigits n).length ≤ k := fun n hk hn =>
  natToHexDigitsAux_len (n + 1) k n (Nat.lt_succ_self n) hk hn

theorem hexVal_replicate_zero (j : Nat) (l : List Char) :
    hexVal (List.replicate j '0' ++ l) = hexVal l := by
  induction j with
  | zero => rfl
  | succ j ih =>
    rw [List.replicate_succ, List.cons_append]
    show hexVal ('0' :: (List.replicate j '0' ++ l)) = hexVal l
    simp only [hexVal, List.foldl_cons] at ih ⊢
    have : (0 : Nat) * 16 + hexDigitVal '0' = 0 := by decide
    rw [this]
    exact ih

theorem wordHexChars_len (n : Nat) (h : n < 2 ^ 256) : (wordHexChars n).length = 64 := by
  have h64 : (natToHexDigits n).length ≤ 64 := by
    apply natToHexDigits_len_le 64 n (by omega)
    calc n < 2 ^ 256 := h
    _ = 16 ^ 64 := by norm_num
  simp only [wordHexChars, List.length_append, List.length_replicate]
  omega

theorem wordHexChars_hex (n : Nat) : (wordHexChars n).all isHexDigitB = true := by
  simp only [wordHexChars, List.all_append, Bool.and_eq_true]
  constructor
  · simp only [List.all_eq_true]
    intro c hc
    rw [List.eq_of_mem_replicate hc]
    decide
  · exact natToHexDigits_hex n

theorem hexVal_wordHexChars (n : Nat) : hexVal (wordHexChars n) = n := by
  rw [wordHexChars, hexVal_replicate_zero, hexVal_natToHexDigits]

theorem bytesToHexChars_len (bs : List Nat) : (bytesToHexChars bs).length = 2 * bs.length := by
  induction bs with
  | nil => rfl
  | cons b t ih =>
    simp only [bytesToHexChars, List.map_cons, List.flatten_cons] at ih ⊢
    simp only [byteToHexChars, List.length_append, List.length_cons, List.length_nil, ih,
      List.length_cons]
    omega

theorem bytesToHexChars_hex (bs : List Nat) (h : ∀ b ∈ bs, b < 256) :
    (bytesToHexChars bs).all isHexDigitB = true := by
  induction bs with
  | nil => rfl
  | cons b t ih =>
    have hb : b < 256 := h b (List.mem_cons_self b t)
    have h1 : b / 16 < 16 := Nat.div_lt_of_lt_mul (by omega)
    have h2 : b % 16 < 16 := Nat.mod_lt _ (by omega)
    simp only [bytesToHexChars, List.map_cons, List.flatten_cons, byteToHexChars] at ih ⊢
    simp only [List.cons_append, List.nil_append, List.all_cons, Bool.and_eq_true,
      (hexDigitChar_spec _ h1).1, (hexDigitChar_spec _ h2).1, true_and]
    exact ih (fun x hx => h x (List.mem_cons_of_mem b hx))

theorem hexPairsToBytes_bytesToHexChars (bs : List Nat) (h : ∀ b ∈ bs, b < 256) :
    hexPairsToBytes (bytesToHexChars bs) = some bs := by
  induction bs with
  | nil => rfl
  | cons b t ih =>
    have hb : b < 256 := h b (List.mem_cons_self b t)
    have h1 : b / 16 < 16 := Nat.div_lt_of_lt_mul (by omega)
    have h2 : b % 16 < 16 := Nat.mod_lt _ (by omega)
    simp only [bytesToHexChars, List.map_cons, List.flatten_cons, byteToHexChars,
      List.cons_append, List.nil_append] at ih ⊢
    rw [hexPairsToBytes]
    rw [(hexDigitChar_spec (b / 16) h1).1, (hexDigitChar_spec (b % 16) h2).1,
      (hexDigitChar_spec (b / 16) h1).2, (hexDigitChar_spec (b % 16) h2).2]
    rw [if_pos (by decide)]
    rw [ih (fun x hx => h x (List.mem_cons_of_mem b hx))]
    have hbv : b / 16 * 16 + b % 16 = b := by omega
    simp [hbv]

theorem char_toNat_valid (c : Char) :
    c.toNat < 0xD800 ∨ (0xDFFF < c.toNat ∧ c.toNat < 0x110000) := by
  rcases c.valid with h | ⟨h1, h2⟩
  · left; exact h
  · right; exact ⟨h1, h2⟩

theorem utf8EncodeChar_lt256 (c : Char) : ∀ b ∈ utf8EncodeChar c, b < 256 := by
  have hv : c.toNat < 0x110000 := by
    rcases char_toNat_valid c with h | ⟨h1, h2⟩ <;> omega
  simp only [utf8EncodeChar]
  split
  · intro b hb
    simp only [List.mem_singleton] at hb
    omega
  · split
    · intro b hb
      simp only [List.mem_cons, List.not_mem_nil, or_false] at hb
      rcases hb with h | h <;> omega
    · split
      · intro b hb
        simp only [List.mem_cons, List.not_mem_nil, or_false] at hb
        rcases hb with h | h | h <;> omega
      · intro b hb
        simp only [List.mem_cons, List.not_mem_nil, or_false] at hb
        rcases hb with h | h | h | h <;> omega

theorem utf8Step_one (v : Nat) (rest : List Nat) (h : v < 0x80) :
    utf8Step v rest = some (v, rest) := by
  unfold utf8Step
  rw [if_pos h]

theorem utf8Step_two (v : Nat) (rest : List Nat) (hlo : 0x80 ≤ v) (hhi : v < 0x800) :
    utf8Step (0xC0 + v / 64) ((0x80 + v % 64) :: rest) = some (v, rest) := by
  unfold utf8Step
  rw [if_neg (by omega), if_neg (by omega), if_pos (by omega)]
  show (seq2 (0xC0 + v / 64) (0x80 + v % 64)).map (fun w => (w, rest)) = some (v, rest)
  unfold seq2
  rw [if_pos (show contB (0x80 + v % 64) = true by
    simp only [contB, Bool.and_eq_true, decide_eq_true_eq]; omega)]
  have hveq : (0xC0 + v / 64 - 0xC0) * 64 + (0x80 + v % 64 - 0x80) = v := by omega
  rw [hveq, if_neg (by omega)]
  rfl

theorem utf8Step_three (v : Nat) (rest : List Nat) (hlo : 0x800 ≤ v) (hhi : v < 0x10000)
    (hval : v < 0xD800 ∨ 0xDFFF < v) :
    utf8Step (0xE0 + v / 4096) ((0x80 + v / 64 % 64) :: (0x80 + v % 64) :: rest)
      = some (v, rest) := by
  unfold utf8Step
  rw [if_neg (by omega), if_neg (by omega), if_neg (by omega), if_pos (by omega)]
  show (seq3 (0xE0 + v / 4096) (0x80 + v / 64 % 64) (0x80 + v % 64)).map (fun w => (w, rest))
      = some (v, rest)
  unfold seq3
  rw [if_pos (show (contB (0x80 + v / 64 % 64) && contB (0x80 + v % 64)) = true by
    simp only [contB, Bool.and_eq_true, decide_eq_true_eq]; omega)]
  have hveq : (0xE0 + v / 4096 - 0xE0) * 4096 + (0x80 + v / 64 % 64 - 0x80) * 64
      + (0x80 + v % 64 - 0x80) = v := by omega
  rw [hveq]
  have hrej : ¬ ((decide (v < 0x800) || (decide (0xD800 ≤ v) && decide (v < 0xE000)))
      = true) := by
    simp only [Bool.or_eq_true, Bool.and_eq_true, decide_eq_true_eq, not_or, not_and, not_lt]
    refine ⟨by omega, fun hs => ?_⟩
    rcases hval with h | h <;> omega
  rw [if_neg hrej]
  rfl

theorem utf8Step_four (v : Nat) (rest : List Nat) (hlo : 0x10000 ≤ v) (hhi : v < 0x110000) :
    utf8Step (0xF0 + v / 262144)
      ((0x80 + v / 4096 % 64) :: (0x80 + v / 64 % 64) :: (0x80 + v % 64) :: rest)
      = some (v, rest) := by
  unfold utf8Step
  rw [if_neg (by omega), if_neg (by omega), if_neg (by omega), if_neg (by omega),
    if_pos (by omega)]
  show (seq4 (0xF0 + v / 262144) (0x80 + v / 4096 % 64) (0x80 + v / 64 % 64)
      (0x80 + v % 64)).map (fun w => (w, rest)) = some (v, rest)
  unfold seq4
  rw [if_pos (show (contB (0x80 + v / 4096 % 64) && contB (0x80 + v / 64 % 64)
      && contB (0x80 + v % 64)) = true by
    simp only [contB, Bool.and_eq_true, decide_eq_true_eq]; omega)]
  have hveq : (0xF0 + v / 262144 - 0xF0) * 262144 + (0x80 + v / 4096 % 64 - 0x80) * 4096
      + (0x80 + v / 64 % 64 - 0x80) * 64 + (0x80 + v % 64 - 0x80) = v := by omega
  rw [hveq]
  have hrej : ¬ ((decide (v < 0x10000) || decide (0x110000 ≤ v)) = true) := by
    simp only [Bool.or_eq_true, decide_eq_true_eq, not_or, not_lt]
    omega
  rw [if_neg hrej]
  rfl

theorem utf8_decode_encode_aux (cs : List Char) : ∀ fuel : Nat,
    ((cs.map utf8EncodeChar).flatten).length ≤ fuel →
    utf8DecodeAux fuel ((cs.map utf8EncodeChar).flatten) = some cs := by
  induction cs with
  | nil =>
    intro fuel _
    cases fuel <;> rfl
  | cons c t ih =>
    intro fuel hfuel
    simp only [List.map_cons, List.flatten_cons] at hfuel ⊢
    have hvalid := char_toNat_valid c
    by_cases h1 : c.toNat < 0x80
    · have henc : utf8EncodeChar c = [c.toNat] := by rw [utf8EncodeChar, if_pos h1]
      rw [henc, List.cons_append, List.nil_append] at hfuel ⊢
      cases fuel with
      | zero => exact absurd hfuel (by simp)
      | succ g =>
        rw [utf8DecodeAux, utf8Step_one _ _ h1]
        show (utf8DecodeAux g ((t.map utf8EncodeChar).flatten)).map (Char.ofNat c.toNat :: ·)
            = some (c :: t)
        rw [ih g (by simp only [List.length_cons] at hfuel; omega), Char.ofNat_toNat]
        rfl
    · by_cases h2 : c.toNat < 0x800
      · have henc : utf8EncodeChar c = [0xC0 + c.toNat / 64, 0x80 + c.toNat % 64] := by
          rw [utf8EncodeChar, if_neg h1, if_pos h2]
        rw [henc, List.cons_append, List.cons_append, List.nil_append] at hfuel ⊢
        cases fuel with
        | zero => exact absurd hfuel (by simp)
        | succ g =>
          rw [utf8DecodeAux, utf8Step_two c.toNat _ (by omega) h2]
          show (utf8DecodeAux g ((t.map utf8EncodeChar).flatten)).map (Char.ofNat c.toNat :: ·)
              = some (c :: t)
          rw [ih g (by simp only [List.length_cons] at hfuel; omega), Char.ofNat_toNat]
          rfl
      · by_cases h3 : c.toNat < 0x10000
        · have henc : utf8EncodeChar c
              = [0xE0 + c.toNat / 4096, 0x80 + c.toNat / 64 % 64, 0x80 + c.toNat % 64] := by
            rw [utf8EncodeChar, if_neg h1, if_neg h2, if_pos h3]
          rw [henc, List.cons_append, List.cons_append, List.cons_append,
            List.nil_append] at hfuel ⊢
          cases fuel with
          | zero => exact absurd hfuel (by simp)
          | succ g =>
            rw [utf8DecodeAux, utf8Step_three c.toNat _ (by omega) h3
              (by rcases hvalid with h | ⟨ha, hb⟩
                  · left; omega
                  · right; omega)]
            show (utf8DecodeAux g ((t.map utf8EncodeChar).flatten)).map
                (Char.ofNat c.toNat :: ·) = some (c :: t)
            rw [ih g (by simp only [List.length_cons] at hfuel; omega), Char.ofNat_toNat]
            rfl
        · have henc : utf8EncodeChar c
              = [0xF0 + c.toNat / 262144, 0x80 + c.toNat / 4096 % 64, 0x80 + c.toNat / 64 % 64,
                0x80 + c.toNat % 64] := by
            rw [utf8EncodeChar, if_neg h1, if_neg h2, if_neg h3]
          rw [henc, List.cons_append, List.cons_append, List.cons_append, List.cons_append,
            List.nil_append] at hfuel ⊢
          cases fuel with
          | zero => exact absurd hfuel (by simp)
          | succ g =>
            rw [utf8DecodeAux, utf8Step_four c.toNat _ (by omega)
              (by rcases hvalid with h | ⟨ha, hb⟩ <;> omega)]
            show (utf8DecodeAux g ((t.map utf8EncodeChar).flatten)).map
                (Char.ofNat c.toNat :: ·) = some (c :: t)
            rw [ih g (by simp only [List.length_cons] at hfuel; omega), Char.ofNat_toNat]
            rfl

theorem utf8_decode_encode (cs : List Char) :
    utf8DecodeList ((cs.map utf8EncodeChar).flatten) = some cs :=
  utf8_decode_encode_aux cs _ (Nat.le_refl _)

theorem exBind_ok {a b : Type} (x : a) (f : a → Except String b) :
    exBind (.ok x) f = f x := rfl

theorem exBind_error {a b : Type} (e : String) (f : a → Except String b) :
    exBind (.error e : Except String a) f = (.error e : Except String b) := rfl

theorem data_0x_mk (l : List Char) : ("0x" ++ String.mk l).data = '0' :: 'x' :: l := by
  rw [String.data_append]
  rfl

theorem utf8Encode_lt256 (s : String) : ∀ b ∈ utf8Encode s, b < 256 := by
  intro b hb
  simp only [utf8Encode, List.mem_flatten, List.mem_map] at hb
  rcases hb with ⟨l, ⟨c, _, rfl⟩, hbl⟩
  exact utf8EncodeChar_lt256 c b hbl

theorem hexDataSlice_mid (B : String) (pre mid post : List Char) (off endOff : Nat)
    (hdata : B.data = '0' :: 'x' :: (pre ++ (mid ++ post)))
    (hhex : isHexStr B = true) (heven : B.data.length % 2 = 0)
    (hpre : pre.length = 2 * off) (hmid : mid.length = 2 * endOff - 2 * off) :
    hexDataSlice B off endOff = .ok ("0x" ++ String.mk mid) := by
  unfold hexDataSlice
  rw [if_pos (by
    rw [hhex]
    simp only [Bool.true_and, decide_eq_true_eq]
    exact heven)]
  have hred : ((B.data.drop 2).drop (2 * off)).take (2 * endOff - 2 * off) = mid := by
    rw [hdata]
    rw [List.drop_succ_cons, List.drop_succ_cons, List.drop_zero]
    rw [← hmid, ← hpre, List.drop_left, List.take_left]
  rw [hred]

theorem abiEncodeString_data (s : String) :
    (abiEncodeString s).data = '0' :: 'x'
      :: (wordHexChars 32 ++ (wordHexChars (utf8Encode s).length
          ++ bytesToHexChars (utf8Encode s))) := by
  rw [abiEncodeString, data_0x_mk, List.append_assoc]

theorem abiEncodeString_hex (s : String) : isHexStr (abiEncodeString s) = true := by
  rw [isHexStr, abiEncodeString_data]
  simp only [List.take, List.all_append, List.all_cons, Bool.and_eq_true, beq_iff_eq]
  refine ⟨trivial, ?_⟩
  show ((wordHexChars 32 ++ (wordHexChars (utf8Encode s).length
      ++ bytesToHexChars (utf8Encode s)))).all isHexDigitB = true
  simp only [List.all_append, Bool.and_eq_true]
  exact ⟨wordHexChars_hex 32, wordHexChars_hex _,
    bytesToHexChars_hex _ (utf8Encode_lt256 s)⟩

theorem abiEncodeString_len (s : String) (h : (utf8Encode s).length < 2 ^ 53) :
    (abiEncodeString s).data.length = 130 + 2 * (utf8Encode s).length := by
  rw [abiEncodeString_data]
  simp only [List.length_cons, List.length_append]
  rw [wordHexChars_len 32 (by norm_num), wordHexChars_len _ (by
    calc (utf8Encode s).length < 2 ^ 53 := h
    _ < 2 ^ 256 := by norm_num), bytesToHexChars_len]
  omega

theorem abi_string_roundtrip_core (s : String) (h : (utf8Encode s).length < 2 ^ 53) :
    _parseString (abiEncodeString s) 0 = some s := by
  have hhex := abiEncodeString_hex s
  have hlen := abiEncodeString_len s h
  have heven : (abiEncodeString s).data.length % 2 = 0 := by omega
  have hw1len : (wordHexChars 32).length = 64 := wordHexChars_len 32 (by norm_num)
  have hw2len : (wordHexChars (utf8Encode s).length).length = 64 := by
    apply wordHexChars_len
    calc (utf8Encode s).length < 2 ^ 53 := h
    _ < 2 ^ 256 := by norm_num
  have hbhlen : (bytesToHexChars (utf8Encode s)).length = 2 * (utf8Encode s).length :=
    bytesToHexChars_len _
  have hne : ¬ (abiEncodeString s = "0x") := by
    intro heq
    have hl2 : (abiEncodeString s).data.length = 2 := by rw [heq]; decide
    omega
  have hs1 : hexDataSlice (abiEncodeString s) 0 32 = .ok ("0x" ++ String.mk (wordHexChars 32)) := by
    apply hexDataSlice_mid (abiEncodeString s) [] (wordHexChars 32)
      (wordHexChars (utf8Encode s).length ++ bytesToHexChars (utf8Encode s)) 0 32
      _ hhex heven (by simp) (by rw [hw1len])
    rw [abiEncodeString_data]
    simp
  have hs2 : hexDataSlice (abiEncodeString s) 32 64
      = .ok ("0x" ++ String.mk (wordHexChars (utf8Encode s).length)) := by
    apply hexDataSlice_mid (abiEncodeString s) (wordHexChars 32)
      (wordHexChars (utf8Encode s).length) (bytesToHexChars (utf8Encode s)) 32 64
      _ hhex heven (by rw [hw1len]) (by rw [hw2len])
    exact abiEncodeString_data s
  have hs3 : hexDataSlice (abiEncodeString s) 64 (64 + (utf8Encode s).length)
      = .ok ("0x" ++ String.mk (bytesToHexChars (utf8Encode s))) := by
    apply hexDataSlice_mid (abiEncodeString s)
      (wordHexChars 32 ++ wordHexChars (utf8Encode s).length)
      (bytesToHexChars (utf8Encode s)) [] 64 (64 + (utf8Encode s).length)
      _ hhex heven (by simp only [List.length_append]; omega)
      (by rw [hbhlen]; omega)
    rw [abiEncodeString_data]
    simp [List.append_assoc]
  have hb1 : bigNumberHexToNumber ("0x" ++ String.mk (wordHexChars 32)) = .ok 32 := by
    unfold bigNumberHexToNumber
    rw [data_0x_mk, List.drop_succ_cons, List.drop_succ_cons, List.drop_zero,
      hexVal_wordHexChars]
    rw [if_pos (by norm_num)]
  have hb2 : bigNumberHexToNumber ("0x" ++ String.mk (wordHexChars (utf8Encode s).length))
      = .ok (utf8Encode s).length := by
    unfold bigNumberHexToNumber
    rw [data_0x_mk, List.drop_succ_cons, List.drop_succ_cons, List.drop_zero,
      hexVal_wordHexChars]
    rw [if_pos h]
  have hpb : _parseBytes (abiEncodeString s) 0
      = .ok (some ("0x" ++ String.mk (bytesToHexChars (utf8Encode s)))) := by
    rw [_parseBytes, if_neg hne]
    rw [show (0 : Nat) + 32 = 32 from rfl, hs1, exBind_ok, hb1, exBind_ok]
    rw [show (32 : Nat) + 32 = 64 from rfl, hs2, exBind_ok, hb2, exBind_ok]
    rw [hs3, exBind_ok]
  rw [_parseString, hpb]
  show toUtf8StringHex ("0x" ++ String.mk (bytesToHexChars (utf8Encode s))) = some s
  rw [toUtf8StringHex]
  rw [if_pos (by
    rw [isHexStr, data_0x_mk]
    simp only [List.take, List.drop_succ_cons, List.drop_zero, List.length_cons,
      Bool.and_eq_true, beq_iff_eq, decide_eq_true_eq]
    refine ⟨⟨trivial, bytesToHexChars_hex _ (utf8Encode_lt256 s)⟩, ?_⟩
    rw [hbhlen]
    omega)]
  rw [data_0x_mk, List.drop_succ_cons, List.drop_succ_cons, List.drop_zero]
  rw [hexPairsToBytes_bytesToHexChars _ (utf8Encode_lt256 s)]
  show (utf8DecodeList (utf8Encode s)).map String.mk = some s
  rw [show utf8Encode s = ((s.data.map utf8EncodeChar).flatten) from rfl,
    utf8_decode_encode]
  rfl

theorem startsWithCI_eq_iff (s p : String) :
    startsWithCI s p = true ↔ lowerL (s.data.take p.data.length) = lowerL p.data := by
  simp [startsWithCI]

/-- C8: ABI-encoding a string as a dynamic value at word offset 0 (offset word,
length word at that offset, raw UTF-8 bytes at offset + 32) and decoding the
buffer with the string-flavored decoder `_parseString` at start 0 yields the
original string; the length hypothesis reflects the 53-bit bound of
`BigNumber.toNumber`. -/
theorem abi_string_roundtrip (s : String) (h : (utf8Encode s).length < 2 ^ 53) :
    _parseString (abiEncodeString s) 0 = some s :=
  abi_string_roundtrip_core s h

/-- Witness for C8 at the spec's concrete input `"foo"`. -/
theorem abi_string_roundtrip_witness :
    (utf8Encode "foo").length < 2 ^ 53 ∧ _parseString (abiEncodeString "foo") 0 = some "foo" :=
  ⟨by decide, abi_string_roundtrip "foo" (by decide)⟩

/-- C10: the string-flavored ABI decoder `_parseString` is total at its
interface: for every buffer and start index it returns a decoded string or
`none`, never an exception; every failure of the underlying `_parseBytes`
(including the `0x` sentinel) is caught and converted to `none`. -/
theorem parseString_total (result : String) (start : Nat) :
    (_parseString result start = none ∨ ∃ v, _parseString result start = some v) ∧
    (∀ e, _parseBytes result start = .error e → _parseString result start = none) ∧
    (_parseBytes result start = .ok none → _parseString result start = none) ∧
    (result = "0x" → _parseString result start = none) := by
  refine ⟨?_, ?_, ?_, ?_⟩
  · cases hp : _parseString result start with
    | none => exact Or.inl rfl
    | some v => exact Or.inr ⟨v, rfl⟩
  · intro e he
    rw [_parseString, he]
  · intro he
    rw [_parseString, he]
  · intro he
    subst he
    rw [_parseString]
    rw [show _parseBytes "0x" start = .ok none by rw [_parseBytes, if_pos rfl]]

/-- Witness for C10 at the canonical empty-return sentinel. -/
theorem parseString_total_witness : _parseString "0x" 0 = none :=
  (parseString_total "0x" 0).2.2.2 rfl

/-- C6: `getIpfsLink` strips exactly one accepted prefix — `ipfs://ipfs/` or
else `ipfs://` — and returns `{gateway}/ipfs/` followed by the remainder, so
both accepted forms with the same cid map to the same URL; an input matching
neither (case-insensitive) prefix form is rejected with an error. -/
theorem getIpfsLink_spec (gw rest s : String) :
    (getIpfsLink ("ipfs://ipfs/" ++ rest) gw = .ok (gw ++ "/ipfs/" ++ rest)) ∧
    (startsWithCI rest "ipfs/" = false →
      getIpfsLink ("ipfs://" ++ rest) gw = .ok (gw ++ "/ipfs/" ++ rest)) ∧
    (startsWithCI s "ipfs://" = false → ∃ e, getIpfsLink s gw = .error e) := by
  refine ⟨?_, ?_, ?_⟩
  · rw [getIpfsLink, if_pos (startsWithCI_append "ipfs://ipfs/" rest)]
    have hd : ("ipfs://ipfs/" ++ rest).data.drop 12 = rest.data := by
      rw [String.data_append]
      have h12 : ("ipfs://ipfs/" : String).data.length = 12 := by decide
      rw [← h12, List.drop_left]
    rw [hd, strMk_data]
  · intro hrest
    have hrest1 : ¬ (startsWithCI rest "ipfs/" = true) := by rw [hrest]; simp
    rw [startsWithCI_eq_iff] at hrest1
    have h5 : ("ipfs/" : String).data.length = 5 := by decide
    rw [h5] at hrest1
    have hne2 : ¬ (startsWithCI ("ipfs://" ++ rest) "ipfs://ipfs/" = true) := by
      rw [startsWithCI_eq_iff]
      intro hcontra
      rw [String.data_append] at hcontra
      have h12 : ("ipfs://ipfs/" : String).data.length = 12 := by decide
      rw [h12] at hcontra
      have htake : (("ipfs://" : String).data ++ rest.data).take 12
          = ("ipfs://" : String).data ++ rest.data.take 5 := by
        have h75 : (12 : Nat) = ("ipfs://" : String).data.length + 5 := by decide
        rw [h75, List.take_append]
      rw [htake] at hcontra
      simp only [lowerL, List.map_append] at hcontra
      have hsplit : ("ipfs://ipfs/" : String).data.map Char.toLower
          = ("ipfs://" : String).data.map Char.toLower
            ++ ("ipfs/" : String).data.map Char.toLower := by decide
      rw [hsplit] at hcontra
      have hcast := List.append_cancel_left hcontra
      exact hrest1 hcast
    rw [getIpfsLink, if_neg hne2, if_pos (startsWithCI_append "ipfs://" rest)]
    have hd : ("ipfs://" ++ rest).data.drop 7 = rest.data := by
      rw [String.data_append]
      have h7 : ("ipfs://" : String).data.length = 7 := by decide
      rw [← h7, List.drop_left]
    rw [hd, strMk_data]
  · intro hs
    have hns : ¬ (startsWithCI s "ipfs://" = true) := by rw [hs]; simp
    have hns12 : ¬ (startsWithCI s "ipfs://ipfs/" = true) := by
      intro hcontra
      apply hns
      rw [startsWithCI_eq_iff] at hcontra ⊢
      have h12 : ("ipfs://ipfs/" : String).data.length = 12 := by decide
      rw [h12] at hcontra
      have h7c := congrArg (List.take 7) hcontra
      simp only [lowerL, ← List.map_take, List.take_take] at h7c
      have hmin : min 7 12 = 7 := by decide
      rw [hmin] at h7c
      have hc : ("ipfs://ipfs/" : String).data.take 7 = ("ipfs://" : String).data := by decide
      rw [hc] at h7c
      have hl7 : ("ipfs://" : String).data.length = 7 := by decide
      rw [hl7]
      simp only [lowerL]
      exact h7c
    rw [getIpfsLink, if_neg hns12, if_neg hns]
    exact ⟨_, rfl⟩

/-- Witness for C6: both accepted forms of a cid resolve through the default
gateway, and an `http://` input is rejected. -/
theorem getIpfsLink_spec_witness :
    getIpfsLink ("ipfs://ipfs/" ++ "QmAbc") "https://gateway.ipfs.io"
        = .ok ("https://gateway.ipfs.io" ++ "/ipfs/" ++ "QmAbc") ∧
    getIpfsLink ("ipfs://" ++ "QmAbc") "https://gateway.ipfs.io"
        = .ok ("https://gateway.ipfs.io" ++ "/ipfs/" ++ "QmAbc") ∧
    ∃ e, getIpfsLink "http://x" "https://gateway.ipfs.io" = .error e :=
  ⟨(getIpfsLink_spec "https://gateway.ipfs.io" "QmAbc" "http://x").1,
   (getIpfsLink_spec "https://gateway.ipfs.io" "QmAbc" "http://x").2.1 (by decide),
   (getIpfsLink_spec "https://gateway.ipfs.io" "QmAbc" "http://x").2.2 (by decide)⟩

/-! Symbolic-execution lemmas for the resolution pipeline. -/

theorem avatar_of_body_ok (gw : String) (env : Env) (r : Option ResolvedAvatar)
    (h : avatarBody gw env = .ok r) : avatar gw env = r := by
  rw [avatar, h]

theorem avatar_of_body_error (gw : String) (env : Env) (e : String)
    (h : avatarBody gw env = .error e) : avatar gw env = none := by
  rw [avatar, h]

theorem avatarBody_route (gw : String) (env : Env) (owner av : String) (rest : List String)
    (hinfo : env.info = .ok (some owner)) (howner : ¬ (owner = ""))
    (hrec : env.records = .ok (av :: rest)) (hav : ¬ (av = "")) :
    avatarBody gw env
      = avatarLoop gw owner av [⟨"account", env.account⟩] env matcherOrder := by
  simp only [avatarBody, hinfo, hrec, exBind_ok, if_neg howner, if_neg hav]

theorem avatarBody_info_none (gw : String) (env : Env)
    (hinfo : env.info = .ok none) : avatarBody gw env = .ok none := by
  simp only [avatarBody, hinfo, exBind_ok]

theorem avatarBody_owner_empty (gw : String) (env : Env)
    (hinfo : env.info = .ok (some "")) : avatarBody gw env = .ok none := by
  simp [avatarBody, hinfo, exBind_ok]

theorem avatarBody_records_nil (gw : String) (env : Env) (owner : String)
    (hinfo : env.info = .ok (some owner)) (howner : ¬ (owner = ""))
    (hrec : env.records = .ok []) : avatarBody gw env = .ok none := by
  simp only [avatarBody, hinfo, hrec, exBind_ok, if_neg howner]

theorem avatarBody_record_empty (gw : String) (env : Env) (owner : String) (rest : List String)
    (hinfo : env.info = .ok (some owner)) (howner : ¬ (owner = ""))
    (hrec : env.records = .ok ("" :: rest)) : avatarBody gw env = .ok none := by
  simp [avatarBody, hinfo, hrec, exBind_ok, if_neg howner]

theorem avatarLoop_all_none (gw owner av : String) (linkage : List LinkageStep) (env : Env)
    (hm1 : matchHttps av = none) (hm2 : matchData av = none) (hm3 : matchIpfs av = none)
    (hm4 : matchEip155 av = none) :
    avatarLoop gw owner av linkage env matcherOrder = .ok none := by
  simp only [matcherOrder, avatarLoop, tryMatch, hm1, hm2, hm3, hm4]

theorem avatarLoop_https (gw owner av g1 g2 : String) (linkage : List LinkageStep) (env : Env)
    (hm1 : matchHttps av = some (g1, g2)) (hs : lowerStr g1 = "https") :
    avatarLoop gw owner av linkage env matcherOrder
      = .ok (some ⟨linkage ++ [⟨"url", av⟩], av⟩) := by
  simp [matcherOrder, avatarLoop, tryMatch, hm1, hs]

theorem avatarLoop_data (gw owner av g1 g2 : String) (linkage : List LinkageStep) (env : Env)
    (hm1 : matchHttps av = none) (hm2 : matchData av = some (g1, g2))
    (hs : lowerStr g1 = "data") :
    avatarLoop gw owner av linkage env matcherOrder
      = .ok (some ⟨linkage ++ [⟨"data", av⟩], av⟩) := by
  simp [matcherOrder, avatarLoop, tryMatch, hm1, hm2, hs]

theorem avatarLoop_ipfs (gw owner av g1 g2 : String) (linkage : List LinkageStep) (env : Env)
    (hm1 : matchHttps av = none) (hm2 : matchData av = none)
    (hm3 : matchIpfs av = some (g1, g2)) (hs : lowerStr g1 = "ipfs") :
    avatarLoop gw owner av linkage env matcherOrder
      = exBind (getIpfsLink av gw) fun u => .ok (some ⟨linkage ++ [⟨"ipfs", av⟩], u⟩) := by
  simp [matcherOrder, avatarLoop, tryMatch, hm1, hm2, hm3, hs]

theorem avatarLoop_erc (gw owner av g1 g2 : String) (linkage : List LinkageStep) (env : Env)
    (hm1 : matchHttps av = none) (hm2 : matchData av = none) (hm3 : matchIpfs av = none)
    (hm4 : matchEip155 av = some (g1, g2))
    (hs : lowerStr g1 = "erc721" ∨ lowerStr g1 = "erc1155") :
    avatarLoop gw owner av linkage env matcherOrder
      = ercBranch gw owner av (lowerStr g1) g2 linkage env := by
  rcases hs with hs | hs <;>
    simp [matcherOrder, avatarLoop, tryMatch, hm1, hm2, hm3, hm4, hs]

theorem ercBranch_comps_malformed (gw owner av scheme g2 : String)
    (linkage : List LinkageStep) (env : Env)
    (hsplit : (splitOnSlash g2).length ≠ 2) :
    ercBranch gw owner av scheme g2 linkage env = .ok none := by
  simp [ercBranch, if_pos hsplit]

theorem ercBranch_721_mismatch (gw owner av g2 c0 c1 addr tid ret tokenOwner : String)
    (tn : Nat) (linkage : List LinkageStep) (env : Env)
    (hsplit : splitOnSlash g2 = [c0, c1])
    (haddr : env.formatAddress c0 = .ok addr)
    (htok : env.parseTokenId c1 = .ok tn)
    (htw : tokenIdWord tn = .ok tid)
    (hcall : env.call addr (hexConcat ["0x6352211e", tid]) = .ok ret)
    (hown : env.callAddress ret = .ok tokenOwner)
    (hne : owner ≠ tokenOwner) :
    ercBranch gw owner av "erc721" g2 linkage env = .ok none := by
  simp [ercBranch, hsplit, haddr, htok, htw, hcall, hown, hne, exBind_ok]

theorem ercBranch_1155_zero (gw owner av g2 c0 c1 addr owPad tid balRet : String)
    (tn : Nat) (linkage : List LinkageStep) (env : Env)
    (hsplit : splitOnSlash g2 = [c0, c1])
    (haddr : env.formatAddress c0 = .ok addr)
    (htok : env.parseTokenId c1 = .ok tn)
    (htw : tokenIdWord tn = .ok tid)
    (hpad : hexZeroPadStr owner 32 = .ok owPad)
    (hcall : env.call addr (hexConcat ["0x00fdd58e", owPad, tid]) = .ok balRet)
    (hbal : bigNumberFromStr balRet = .ok 0) :
    ercBranch gw owner av "erc1155" g2 linkage env = .ok none := by
  simp [ercBranch, hsplit, haddr, htok, htw, hpad, hcall, hbal, exBind_ok]

theorem ercBranch_721_decode_none (gw owner av g2 c0 c1 addr tid ret ret2 : String)
    (tn : Nat) (linkage : List LinkageStep) (env : Env)
    (hsplit : splitOnSlash g2 = [c0, c1])
    (haddr : env.formatAddress c0 = .ok addr)
    (htok : env.parseTokenId c1 = .ok tn)
    (htw : tokenIdWord tn = .ok tid)
    (hcall : env.call addr (hexConcat ["0x6352211e", tid]) = .ok ret)
    (hown : env.callAddress ret = .ok owner)
    (hcall2 : env.call addr (hexConcat ["0xc87b56dd", tid]) = .ok ret2)
    (hdec : _parseString ret2 0 = none) :
    ercBranch gw owner av "erc721" g2 linkage env = .ok none := by
  simp [ercBranch, hsplit, haddr, htok, htw, hcall, hown, hcall2, hdec, exBind_ok]

theorem ercBranch_721_fetch_none (gw owner av g2 c0 c1 addr tid ret ret2 mu : String)
    (tn : Nat) (linkage : List LinkageStep) (env : Env)
    (hsplit : splitOnSlash g2 = [c0, c1])
    (haddr : env.formatAddress c0 = .ok addr)
    (htok : env.parseTokenId c1 = .ok tn)
    (htw : tokenIdWord tn = .ok tid)
    (hcall : env.call addr (hexConcat ["0x6352211e", tid]) = .ok ret)
    (hown : env.callAddress ret = .ok owner)
    (hcall2 : env.call addr (hexConcat ["0xc87b56dd", tid]) = .ok ret2)
    (hdec : _parseString ret2 0 = some mu)
    (hnoipfs : startsWithCI mu "ipfs:" = false)
    (hfetch : env.fetchJson mu = .ok none) :
    ercBranch gw owner av "erc721" g2 linkage env = .ok none := by
  simp [ercBranch, hsplit, haddr, htok, htw, hcall, hown, hcall2, hdec, hnoipfs, hfetch,
    exBind_ok]

theorem ercBranch_721_image_missing (gw owner av g2 c0 c1 addr tid ret ret2 mu : String)
    (tn : Nat) (md : Metadata) (linkage : List LinkageStep) (env : Env)
    (hsplit : splitOnSlash g2 = [c0, c1])
    (haddr : env.formatAddress c0 = .ok addr)
    (htok : env.parseTokenId c1 = .ok tn)
    (htw : tokenIdWord tn = .ok tid)
    (hcall : env.call addr (hexConcat ["0x6352211e", tid]) = .ok ret)
    (hown : env.callAddress ret = .ok owner)
    (hcall2 : env.call addr (hexConcat ["0xc87b56dd", tid]) = .ok ret2)
    (hdec : _parseString ret2 0 = some mu)
    (hnoipfs : startsWithCI mu "ipfs:" = false)
    (hfetch : env.fetchJson mu = .ok (some md))
    (hmd : md.image = none) :
    ercBranch gw owner av "erc721" g2 linkage env = .ok none := by
  simp [ercBranch, hsplit, haddr, htok, htw, hcall, hown, hcall2, hdec, hnoipfs, hfetch, hmd,
    exBind_ok]

theorem ercBranch_721_image_bad (gw owner av g2 c0 c1 addr tid ret ret2 mu img : String)
    (tn : Nat) (md : Metadata) (linkage : List LinkageStep) (env : Env)
    (hsplit : splitOnSlash g2 = [c0, c1])
    (haddr : env.formatAddress c0 = .ok addr)
    (htok : env.parseTokenId c1 = .ok tn)
    (htw : tokenIdWord tn = .ok tid)
    (hcall : env.call addr (hexConcat ["0x6352211e", tid]) = .ok ret)
    (hown : env.callAddress ret = .ok owner)
    (hcall2 : env.call addr (hexConcat ["0xc87b56dd", tid]) = .ok ret2)
    (hdec : _parseString ret2 0 = some mu)
    (hnoipfs : startsWithCI mu "ipfs:" = false)
    (hfetch : env.fetchJson mu = .ok (some md))
    (hmd : md.image = some (JsonImage.str img))
    (himg1 : startsWithCI img "https://" = false)
    (himg2 : startsWithCI img "data:" = false)
    (himg3 : matchIpfs img = none) :
    ercBranch gw owner av "erc721" g2 linkage env = .ok none := by
  simp [ercBranch, hsplit, haddr, htok, htw, hcall, hown, hcall2, hdec, hnoipfs, hfetch, hmd,
    himg1, himg2, himg3, exBind_ok]

theorem ercBranch_1155_success (gw owner av g2 c0 c1 addr owPad tid balRet ret2 mu img : String)
    (tn : Nat) (bal : Int) (md : Metadata) (linkage : List LinkageStep) (env : Env)
    (hsplit : splitOnSlash g2 = [c0, c1])
    (haddr : env.formatAddress c0 = .ok addr)
    (htok : env.parseTokenId c1 = .ok tn)
    (htw : tokenIdWord tn = .ok tid)
    (hpad : hexZeroPadStr owner 32 = .ok owPad)
    (hcall : env.call addr (hexConcat ["0x00fdd58e", owPad, tid]) = .ok balRet)
    (hbal : bigNumberFromStr balRet = .ok bal) (hbnz : ¬ (bal = 0))
    (hcall2 : env.call addr (hexConcat ["0x0e89341c", tid]) = .ok ret2)
    (hdec : _parseString ret2 0 = some mu)
    (hnoipfs : startsWithCI (replaceFirst mu "{id}" (String.mk (tid.data.drop 2))) "ipfs:"
        = false)
    (hfetch : env.fetchJson (replaceFirst mu "{id}" (String.mk (tid.data.drop 2)))
        = .ok (some md))
    (hmd : md.image = some (JsonImage.str img))
    (himg : startsWithCI img "https://" = true) :
    ercBranch gw owner av "erc1155" g2 linkage env
      = .ok (some ⟨linkage ++ [⟨"erc1155", av⟩, ⟨"balance", toString bal⟩,
          ⟨"metadata-url-base", mu⟩,
          ⟨"metadata-url-expanded", replaceFirst mu "{id}" (String.mk (tid.data.drop 2))⟩,
          ⟨"metadata-url", replaceFirst mu "{id}" (String.mk (tid.data.drop 2))⟩,
          ⟨"metadata", md.stringified⟩, ⟨"url", img⟩], img⟩) := by
  simp [ercBranch, hsplit, haddr, htok, htw, hpad, hcall, hbal, hbnz, hcall2, hdec, hnoipfs,
    hfetch, hmd, himg, exBind_ok]

theorem hexConcat_balance_ne_uri (owPad tid : String) :
    ¬ (hexConcat ["0x00fdd58e", owPad, tid] = hexConcat ["0x0e89341c", tid]) := by
  intro heq
  have hq := congrArg (fun t => t.data.take 4) heq
  simp only [hexConcat, data_0x_mk, List.map_cons, List.map_nil, List.flatten_cons,
    List.flatten_nil] at hq
  rw [show ("0x00fdd58e" : String).data.drop 2 = ['0','0','f','d','d','5','8','e'] from
      by decide,
    show ("0x0e89341c" : String).data.drop 2 = ['0','e','8','9','3','4','1','c'] from
      by decide] at hq
  simp at hq

theorem hexConcat_owner_ne_uri (tid : String) :
    ¬ (hexConcat ["0x6352211e", tid] = hexConcat ["0xc87b56dd", tid]) := by
  intro heq
  have hq := congrArg (fun t => t.data.take 3) heq
  simp only [hexConcat, data_0x_mk, List.map_cons, List.map_nil, List.flatten_cons,
    List.flatten_nil] at hq
  rw [show ("0x6352211e" : String).data.drop 2 = ['6','3','5','2','2','1','1','e'] from
      by decide,
    show ("0xc87b56dd" : String).data.drop 2 = ['c','8','7','b','5','6','d','d'] from
      by decide] at hq
  simp at hq

theorem avatar_erc_route (gw : String) (env : Env) (owner av g1 g2 : String)
    (rest : List String) (r : Option ResolvedAvatar)
    (hinfo : env.info = .ok (some owner)) (howner : ¬ (owner = ""))
    (hrec : env.records = .ok (av :: rest)) (hav : ¬ (av = ""))
    (hm1 : matchHttps av = none) (hm2 : matchData av = none) (hm3 : matchIpfs av = none)
    (hm4 : matchEip155 av = some (g1, g2))
    (hs : lowerStr g1 = "erc721" ∨ lowerStr g1 = "erc1155")
    (herc : ercBranch gw owner av (lowerStr g1) g2 [⟨"account", env.account⟩] env = .ok r) :
    avatar gw env = r := by
  apply avatar_of_body_ok
  rw [avatarBody_route gw env owner av rest hinfo howner hrec hav,
    avatarLoop_erc gw owner av g1 g2 _ env hm1 hm2 hm3 hm4 hs]
  exact herc

/-- C9: on the ERC-1155 path the resolver issues `balanceOf(owner, tokenId)` —
selector `0x00fdd58e` concatenated with the 32-byte padded owner and padded
tokenId — decodes the returned integer, and when it is zero the operation is
Unresolved (`none`); moreover the outcome is the same whatever the response to
the `uri(tokenId)` calldata would be, so that call is never consulted. -/
theorem avatar_erc1155_zero_balance (gw : String) (env : Env)
    (owner av g1 g2 c0 c1 addr owPad tid balRet : String) (tn : Nat) (rest : List String)
    (hinfo : env.info = .ok (some owner)) (howner : ¬ (owner = ""))
    (hrec : env.records = .ok (av :: rest)) (hav : ¬ (av = ""))
    (hm1 : matchHttps av = none) (hm2 : matchData av = none) (hm3 : matchIpfs av = none)
    (hm4 : matchEip155 av = some (g1, g2)) (hs : lowerStr g1 = "erc1155")
    (hsplit : splitOnSlash g2 = [c0, c1])
    (haddr : env.formatAddress c0 = .ok addr)
    (htok : env.parseTokenId c1 = .ok tn)
    (htw : tokenIdWord tn = .ok tid)
    (hpad : hexZeroPadStr owner 32 = .ok owPad)
    (hcall : env.call addr (hexConcat ["0x00fdd58e", owPad, tid]) = .ok balRet)
    (hbal : bigNumberFromStr balRet = .ok 0) :
    avatar gw env = none ∧
    ∀ f, avatar gw (overrideCall env (hexConcat ["0x0e89341c", tid]) f) = none := by
  have key : ∀ env2 : Env, env2.info = .ok (some owner) →
      env2.records = .ok (av :: rest) →
      env2.formatAddress c0 = .ok addr →
      env2.parseTokenId c1 = .ok tn →
      env2.call addr (hexConcat ["0x00fdd58e", owPad, tid]) = .ok balRet →
      avatar gw env2 = none := by
    intro env2 h1 h2 h3 h4 h5
    apply avatar_erc_route gw env2 owner av g1 g2 rest none h1 howner h2 hav hm1 hm2 hm3 hm4
      (Or.inr hs)
    rw [hs]
    exact ercBranch_1155_zero gw owner av g2 c0 c1 addr owPad tid balRet tn _ env2
      hsplit h3 h4 htw hpad h5 hbal
  refine ⟨key env hinfo hrec haddr htok hcall, fun f => ?_⟩
  apply key (overrideCall env (hexConcat ["0x0e89341c", tid]) f) hinfo hrec haddr htok
  show (if hexConcat ["0x00fdd58e", owPad, tid] = hexConcat ["0x0e89341c", tid] then
      f addr (hexConcat ["0x00fdd58e", owPad, tid])
    else env.call addr (hexConcat ["0x00fdd58e", owPad, tid])) = .ok balRet
  rw [if_neg (hexConcat_balance_ne_uri owPad tid)]
  exact hcall

theorem matchHttps_scheme (av g1 g2 : String) (h : matchHttps av = some (g1, g2)) :
    lowerStr g1 = "https" := by
  rw [matchHttps] at h
  by_cases hc : (startsWithCI av "https://" && noNl (av.data.drop 8)) = true
  · rw [if_pos hc] at h
    simp only [Option.some.injEq, Prod.mk.injEq] at h
    obtain ⟨hg1, _⟩ := h
    subst hg1
    have hcs : startsWithCI av "https://" = true := by
      simp only [Bool.and_eq_true] at hc
      exact hc.1
    rw [startsWithCI_eq_iff] at hcs
    have h8 : ("https://" : String).data.length = 8 := by decide
    rw [h8] at hcs
    have h5 := congrArg (List.take 5) hcs
    simp only [lowerL, ← List.map_take, List.take_take] at h5
    have hmin : min 5 8 = 5 := by decide
    rw [hmin] at h5
    have hrhs : (("https://" : String).data.take 5).map Char.toLower
        = ("https" : String).data := by decide
    rw [hrhs] at h5
    show String.mk ((String.mk (av.data.take 5)).data.map Char.toLower) = "https"
    rw [show (String.mk (av.data.take 5)).data = av.data.take 5 from rfl, h5]
  · rw [if_neg hc] at h
    cases h

theorem matchData_scheme (av g1 g2 : String) (h : matchData av = some (g1, g2)) :
    lowerStr g1 = "data" := by
  rw [matchData] at h
  by_cases hc : (startsWithCI av "data:" && noNl (av.data.drop 5)) = true
  · rw [if_pos hc] at h
    simp only [Option.some.injEq, Prod.mk.injEq] at h
    obtain ⟨hg1, _⟩ := h
    subst hg1
    have hcs : startsWithCI av "data:" = true := by
      simp only [Bool.and_eq_true] at hc
      exact hc.1
    rw [startsWithCI_eq_iff] at hcs
    have h5 : ("data:" : String).data.length = 5 := by decide
    rw [h5] at hcs
    have h4 := congrArg (List.take 4) hcs
    simp only [lowerL, ← List.map_take, List.take_take] at h4
    have hmin : min 4 5 = 4 := by decide
    rw [hmin] at h4
    have hrhs : (("data:" : String).data.take 4).map Char.toLower
        = ("data" : String).data := by decide
    rw [hrhs] at h4
    show String.mk ((String.mk (av.data.take 4)).data.map Char.toLower) = "data"
    rw [show (String.mk (av.data.take 4)).data = av.data.take 4 from rfl, h4]
  · rw [if_neg hc] at h
    cases h

/-- C2 (amended): a record matching the https pattern resolves with exactly the
two linkage steps `account`, `url`; a record matching the data pattern resolves
with the two steps `account`, `data` (the source pushes kind `data`, not
`url`); in both branches the resolved url is the record verbatim. -/
theorem avatar_direct_schemes (gw : String) (env : Env) (owner av g1 g2 : String)
    (rest : List String)
    (hinfo : env.info = .ok (some owner)) (howner : ¬ (owner = ""))
    (hrec : env.records = .ok (av :: rest)) (hav : ¬ (av = "")) :
    (matchHttps av = some (g1, g2) →
      avatar gw env = some ⟨[⟨"account", env.account⟩, ⟨"url", av⟩], av⟩) ∧
    (matchHttps av = none → matchData av = some (g1, g2) →
      avatar gw env = some ⟨[⟨"account", env.account⟩, ⟨"data", av⟩], av⟩) := by
  constructor
  · intro hm
    apply avatar_of_body_ok
    rw [avatarBody_route gw env owner av rest hinfo howner hrec hav,
      avatarLoop_https gw owner av g1 g2 _ env hm (matchHttps_scheme av g1 g2 hm)]
    rfl
  · intro hm1 hm2
    apply avatar_of_body_ok
    rw [avatarBody_route gw env owner av rest hinfo howner hrec hav,
      avatarLoop_data gw owner av g1 g2 _ env hm1 hm2 (matchData_scheme av g1 g2 hm2)]
    rfl

/-- C3 (amended): the ERC-721 ownership gate compares the decoded `ownerOf`
address with the account's owner key by exact, case-sensitive string equality;
whenever the two strings differ — including when they differ only in letter
case — the operation is Unresolved, and the outcome does not depend on the
`tokenURI` calldata response, so no `metadata-url-base` step is ever reached. -/
theorem avatar_erc721_owner_mismatch (gw : String) (env : Env)
    (owner av g1 g2 c0 c1 addr tid ret tokenOwner : String) (tn : Nat) (rest : List String)
    (hinfo : env.info = .ok (some owner)) (howner : ¬ (owner = ""))
    (hrec : env.records = .ok (av :: rest)) (hav : ¬ (av = ""))
    (hm1 : matchHttps av = none) (hm2 : matchData av = none) (hm3 : matchIpfs av = none)
    (hm4 : matchEip155 av = some (g1, g2)) (hs : lowerStr g1 = "erc721")
    (hsplit : splitOnSlash g2 = [c0, c1])
    (haddr : env.formatAddress c0 = .ok addr)
    (htok : env.parseTokenId c1 = .ok tn)
    (htw : tokenIdWord tn = .ok tid)
    (hcall : env.call addr (hexConcat ["0x6352211e", tid]) = .ok ret)
    (hown : env.callAddress ret = .ok tokenOwner)
    (hne : owner ≠ tokenOwner) :
    avatar gw env = none ∧
    ∀ f, avatar gw (overrideCall env (hexConcat ["0xc87b56dd", tid]) f) = none := by
  have key : ∀ env2 : Env, env2.info = .ok (some owner) →
      env2.records = .ok (av :: rest) →
      env2.formatAddress c0 = .ok addr →
      env2.parseTokenId c1 = .ok tn →
      env2.call addr (hexConcat ["0x6352211e", tid]) = .ok ret →
      env2.callAddress ret = .ok tokenOwner →
      avatar gw env2 = none := by
    intro env2 h1 h2 h3 h4 h5 h6
    apply avatar_erc_route gw env2 owner av g1 g2 rest none h1 howner h2 hav hm1 hm2 hm3 hm4
      (Or.inl hs)
    rw [hs]
    exact ercBranch_721_mismatch gw owner av g2 c0 c1 addr tid ret tokenOwner tn _ env2
      hsplit h3 h4 htw h5 h6 hne
  refine ⟨key env hinfo hrec haddr htok hcall hown, fun f => ?_⟩
  apply key (overrideCall env (hexConcat ["0xc87b56dd", tid]) f) hinfo hrec haddr htok _ hown
  show (if hexConcat ["0x6352211e", tid] = hexConcat ["0xc87b56dd", tid] then
      f addr (hexConcat ["0x6352211e", tid])
    else env.call addr (hexConcat ["0x6352211e", tid])) = .ok ret
  rw [if_neg (hexConcat_owner_ne_uri tid)]
  exact hcall

/-- C7: on a successful ERC-1155 resolution whose decoded `uri(tokenId)`
result contains the literal token `{id}`, the resolver substitutes the first
occurrence of `{id}` with the 64-digit hex word of the tokenId (the padded
token word without its `0x` header) and appends a `metadata-url-expanded`
linkage step carrying exactly the substituted URI; for tokenId 5 the
substituted digits are sixty-three `0`s followed by `5`. -/
theorem avatar_erc1155_id_substitution (gw : String) (env : Env)
    (owner av g1 g2 c0 c1 addr owPad tid balRet ret2 mu img : String)
    (tn : Nat) (bal : Int) (md : Metadata) (rest : List String)
    (hinfo : env.info = .ok (some owner)) (howner : ¬ (owner = ""))
    (hrec : env.records = .ok (av :: rest)) (hav : ¬ (av = ""))
    (hm1 : matchHttps av = none) (hm2 : matchData av = none) (hm3 : matchIpfs av = none)
    (hm4 : matchEip155 av = some (g1, g2)) (hs : lowerStr g1 = "erc1155")
    (hsplit : splitOnSlash g2 = [c0, c1])
    (haddr : env.formatAddress c0 = .ok addr)
    (htok : env.parseTokenId c1 = .ok tn)
    (htw : tokenIdWord tn = .ok tid)
    (hpad : hexZeroPadStr owner 32 = .ok owPad)
    (hcall : env.call addr (hexConcat ["0x00fdd58e", owPad, tid]) = .ok balRet)
    (hbal : bigNumberFromStr balRet = .ok bal) (hbnz : ¬ (bal = 0))
    (hcall2 : env.call addr (hexConcat ["0x0e89341c", tid]) = .ok ret2)
    (hdec : _parseString ret2 0 = some mu)
    (hcontains : ¬ (subIndex mu.data ("{id}" : String).data = none))
    (hnoipfs : startsWithCI (replaceFirst mu "{id}" (String.mk (tid.data.drop 2))) "ipfs:"
        = false)
    (hfetch : env.fetchJson (replaceFirst mu "{id}" (String.mk (tid.data.drop 2)))
        = .ok (some md))
    (hmd : md.image = some (JsonImage.str img))
    (himg : startsWithCI img "https://" = true) :
    avatar gw env = some ⟨[⟨"account", env.account⟩, ⟨"erc1155", av⟩,
      ⟨"balance", toString bal⟩, ⟨"metadata-url-base", mu⟩,
      ⟨"metadata-url-expanded", replaceFirst mu "{id}" (String.mk (tid.data.drop 2))⟩,
      ⟨"metadata-url", replaceFirst mu "{id}" (String.mk (tid.data.drop 2))⟩,
      ⟨"metadata", md.stringified⟩, ⟨"url", img⟩], img⟩ ∧
    tokenIdWord 5
      = .ok "0x0000000000000000000000000000000000000000000000000000000000000005" := by
  constructor
  · apply avatar_erc_route gw env owner av g1 g2 rest _ hinfo howner hrec hav hm1 hm2 hm3 hm4
      (Or.inr hs)
    rw [hs]
    rw [ercBranch_1155_success gw owner av g2 c0 c1 addr owPad tid balRet ret2 mu img tn bal
      md _ env hsplit haddr htok htw hpad hcall hbal hbnz hcall2 hdec hnoipfs hfetch hmd himg]
    rfl
  · decide

/-- C2 counterexample: a `data:` record resolves with a second linkage step of
kind `data`, not `url` as claimed. -/
theorem avatar_data_linkage_cex :
    (avatar defaultGateway envDataRec).map
      (fun r => (r.linkage.map (fun st => st.type), r.url))
      = some (["account", "data"], "data:image/png;base64,abc") ∧
    ¬ (("data" : String) = "url") :=
  ⟨by decide, by decide⟩

/-- Witness for C2 at a concrete https record and a concrete data record. -/
theorem avatar_direct_schemes_witness :
    avatar defaultGateway envHttpsRec
      = some ⟨[⟨"account", "alice.bit"⟩, ⟨"url", "https://example.com/a.png"⟩],
          "https://example.com/a.png"⟩ ∧
    avatar defaultGateway envDataRec
      = some ⟨[⟨"account", "carol.bit"⟩, ⟨"data", "data:image/png;base64,abc"⟩],
          "data:image/png;base64,abc"⟩ :=
  ⟨(avatar_direct_schemes defaultGateway envHttpsRec "0xab" "https://example.com/a.png"
      "https" "example.com/a.png" [] (by decide) (by decide) (by decide) (by decide)).1
      (by decide),
   (avatar_direct_schemes defaultGateway envDataRec "0xab" "data:image/png;base64,abc"
      "data" "image/png;base64,abc" [] (by decide) (by decide) (by decide) (by decide)).2
      (by decide) (by decide)⟩

/-- C3 counterexample: the owner key `0xab` and the decoded `ownerOf` address
`0xAB` are equal under a case-insensitive comparison, yet the pipeline yields
Unresolved; answering in the key's exact case makes the same account resolve,
so the gate is exact string comparison, not case-insensitive. -/
theorem avatar_case_sensitivity_cex :
    lowerStr "0xAB" = lowerStr "0xab" ∧
    avatar defaultGateway envCase = none ∧
    (avatar defaultGateway envCaseOk).map (fun r => r.url)
      = some "https://img.example/a.png" :=
  ⟨by decide, by decide, by decide⟩

/-- Witness for C3 at the concrete case-mismatch environment. -/
theorem avatar_erc721_owner_mismatch_witness :
    avatar defaultGateway envCase = none :=
  (avatar_erc721_owner_mismatch defaultGateway envCase "0xab" "eip155:1/erc721:0xcc/7"
    "erc721" "0xcc/7" "0xcc" "7" "0xcc" tidSeven "0xownerword" "0xAB" 7 []
    (by decide) (by decide) (by decide) (by decide) (by decide) (by decide) (by decide)
    (by decide) (by decide) (by decide) (by decide) (by decide) (by decide) (by decide)
    (by decide) (by decide)).1

/-- C4: with the gateway configured to `https://dweb.link`, the direct
`ipfs://` branch and the metadata-URI translation use the configured gateway,
but the metadata image translation invokes the translator without the
configured gateway, so the final url is built on the default public gateway —
the configuration is silently ignored at that site. -/
theorem avatar_image_gateway_ignores_config :
    pluginIpfs (some "https://dweb.link") = "https://dweb.link" ∧
    avatar "https://dweb.link" envGw = some ⟨[
      ⟨"account", "erin.bit"⟩, ⟨"erc721", "eip155:1/erc721:0xcc/7"⟩, ⟨"owner", "0xab"⟩,
      ⟨"metadata-url-base", "ipfs://QmMeta"⟩,
      ⟨"metadata-url", "https://dweb.link/ipfs/QmMeta"⟩,
      ⟨"metadata", "md"⟩, ⟨"url-ipfs", "ipfs://QmImg"⟩,
      ⟨"url", "https://gateway.ipfs.io/ipfs/QmImg"⟩], "https://gateway.ipfs.io/ipfs/QmImg"⟩ ∧
    avatar "https://dweb.link" envIpfsDirect
      = some ⟨[⟨"account", "bob.bit"⟩, ⟨"ipfs", "ipfs://QmDirect"⟩],
          "https://dweb.link/ipfs/QmDirect"⟩ ∧
    ¬ (("https://gateway.ipfs.io/ipfs/QmImg" : String) = "https://dweb.link/ipfs/QmImg") :=
  ⟨by decide, by decide, by decide, by decide⟩

/-- C5 counterexample: the successful end-to-end ERC-721/IPFS resolution
records eight linkage steps, not six as claimed. -/
theorem avatar_e2e_linkage_cex :
    (avatar defaultGateway envE2E).map (fun r => r.linkage.length) = some 8 ∧
    ¬ ((8 : Nat) = 6) :=
  ⟨by decide, by decide⟩

/-- C5 (amended): the end-to-end ERC-721 resolution with an `ipfs://` metadata
URI and an `ipfs://` image yields the gateway translation of the image URI and
an eight-step linkage in the order account, erc721, owner, metadata-url-base,
metadata-url, metadata, url-ipfs, url. -/
theorem avatar_e2e_erc721_ipfs :
    avatar defaultGateway envE2E = some ⟨[
      ⟨"account", "jeffx.bit"⟩, ⟨"erc721", "eip155:1/erc721:0xcc/7"⟩, ⟨"owner", "0xab"⟩,
      ⟨"metadata-url-base", "ipfs://Qm123"⟩,
      ⟨"metadata-url", "https://gateway.ipfs.io/ipfs/Qm123"⟩,
      ⟨"metadata", "md"⟩, ⟨"url-ipfs", "ipfs://QmImg"⟩,
      ⟨"url", "https://gateway.ipfs.io/ipfs/QmImg"⟩],
      "https://gateway.ipfs.io/ipfs/QmImg"⟩ := by
  decide

/-- Witness for C7 at tokenId 5 with uri result `https://m/{id}`. -/
theorem avatar_erc1155_id_substitution_witness :
    avatar defaultGateway envTmpl = some ⟨[⟨"account", "gail.bit"⟩,
      ⟨"erc1155", "eip155:1/erc1155:0xcc/5"⟩, ⟨"balance", "1"⟩,
      ⟨"metadata-url-base", "https://m/{id}"⟩,
      ⟨"metadata-url-expanded", "https://m/0000000000000000000000000000000000000000000000000000000000000005"⟩,
      ⟨"metadata-url", "https://m/0000000000000000000000000000000000000000000000000000000000000005"⟩,
      ⟨"metadata", "md"⟩, ⟨"url", "https://i.example/a.png"⟩], "https://i.example/a.png"⟩ ∧
    tokenIdWord 5 = .ok "0x0000000000000000000000000000000000000000000000000000000000000005" :=
  avatar_erc1155_id_substitution defaultGateway envTmpl "0xab" "eip155:1/erc1155:0xcc/5"
    "erc1155" "0xcc/5" "0xcc" "5" "0xcc" padAb tidFive "0x01"
    (abiEncodeString "https://m/{id}") "https://m/{id}" "https://i.example/a.png" 5 1
    ⟨some (JsonImage.str "https://i.example/a.png"), "md"⟩ []
    (by decide) (by decide) (by decide) (by decide) (by decide) (by decide) (by decide)
    (by decide) (by decide) (by decide) (by decide) (by decide) (by decide) (by decide)
    (by decide) (by decide) (by decide) (by decide) (by decide) (by decide) (by decide)
    (by decide) (by decide) (by decide)

/-- Witness for C9 at a concrete zero-balance ERC-1155 environment. -/
theorem avatar_erc1155_zero_balance_witness :
    avatar defaultGateway envZero = none :=
  (avatar_erc1155_zero_balance defaultGateway envZero "0xab" "eip155:1/erc1155:0xcc/5"
    "erc1155" "0xcc/5" "0xcc" "5" "0xcc" padAb tidFive "0x00" 5 []
    (by decide) (by decide) (by decide) (by decide) (by decide) (by decide) (by decide)
    (by decide) (by decide) (by decide) (by decide) (by decide) (by decide) (by decide)
    (by decide) (by decide)).1

/-- C1: the avatar operation is caught at the pipeline boundary: every thrown
exception and every local failure condition — missing or falsy owner key,
absent or falsy avatar record, unmatched scheme, malformed token reference,
ownership mismatch, zero balance, ABI decode failure, metadata fetch failure,
missing image field, unsupported image reference — yields the single
Unresolved signal `none`, and the boundary returns either `none` or one
complete `ResolvedAvatar`, never a partial result or an exception. -/
theorem avatar_failures_unresolved (gw : String) (env : Env) :
    (∀ e, avatarBody gw env = .error e → avatar gw env = none) ∧
    (avatar gw env = none ∨ ∃ r, avatar gw env = some r) ∧
    (env.info = .ok none → avatar gw env = none) ∧
    (env.info = .ok (some "") → avatar gw env = none) ∧
    (∀ owner, env.info = .ok (some owner) → ¬ (owner = "") →
      (env.records = .ok [] → avatar gw env = none) ∧
      (∀ rest, env.records = .ok ("" :: rest) → avatar gw env = none) ∧
      (∀ av rest, env.records = .ok (av :: rest) → ¬ (av = "") →
        (matchHttps av = none → matchData av = none → matchIpfs av = none →
          matchEip155 av = none → avatar gw env = none) ∧
        (∀ g1 g2, matchHttps av = none → matchData av = none → matchIpfs av = none →
          matchEip155 av = some (g1, g2) →
          (lowerStr g1 = "erc721" ∨ lowerStr g1 = "erc1155") →
          ((splitOnSlash g2).length ≠ 2 → avatar gw env = none) ∧
          (∀ c0 c1 addr tid ret tn,
            splitOnSlash g2 = [c0, c1] →
            env.formatAddress c0 = .ok addr →
            env.parseTokenId c1 = .ok tn →
            tokenIdWord tn = .ok tid →
            lowerStr g1 = "erc721" →
            env.call addr (hexConcat ["0x6352211e", tid]) = .ok ret →
            (∀ tokenOwner, env.callAddress ret = .ok tokenOwner → owner ≠ tokenOwner →
              avatar gw env = none) ∧
            (∀ ret2, env.callAddress ret = .ok owner →
              env.call addr (hexConcat ["0xc87b56dd", tid]) = .ok ret2 →
              (_parseString ret2 0 = none → avatar gw env = none) ∧
              (∀ mu, _parseString ret2 0 = some mu → startsWithCI mu "ipfs:" = false →
                (env.fetchJson mu = .ok none → avatar gw env = none) ∧
                (∀ md, env.fetchJson mu = .ok (some md) →
                  (md.image = none → avatar gw env = none) ∧
                  (∀ img, md.image = some (JsonImage.str img) →
                    startsWithCI img "https://" = false →
                    startsWithCI img "data:" = false →
                    matchIpfs img = none → avatar gw env = none))))) ∧
          (∀ c0 c1 addr owPad tid balRet tn,
            splitOnSlash g2 = [c0, c1] →
            env.formatAddress c0 = .ok addr →
            env.parseTokenId c1 = .ok tn →
            tokenIdWord tn = .ok tid →
            lowerStr g1 = "erc1155" →
            hexZeroPadStr owner 32 = .ok owPad →
            env.call addr (hexConcat ["0x00fdd58e", owPad, tid]) = .ok balRet →
            bigNumberFromStr balRet = .ok 0 → avatar gw env = none)))) := by
  refine ⟨?_, ?_, ?_, ?_, ?_⟩
  · intro e he
    exact avatar_of_body_error gw env e he
  · cases hv : avatar gw env with
    | none => exact Or.inl rfl
    | some r => exact Or.inr ⟨r, rfl⟩
  · intro h
    exact avatar_of_body_ok gw env none (avatarBody_info_none gw env h)
  · intro h
    exact avatar_of_body_ok gw env none (avatarBody_owner_empty gw env h)
  · intro owner hinfo howner
    refine ⟨?_, ?_, ?_⟩
    · intro h
      exact avatar_of_body_ok gw env none (avatarBody_records_nil gw env owner hinfo howner h)
    · intro rest h
      exact avatar_of_body_ok gw env none
        (avatarBody_record_empty gw env owner rest hinfo howner h)
    · intro av rest hrec hav
      constructor
      · intro hm1 hm2 hm3 hm4
        apply avatar_of_body_ok
        rw [avatarBody_route gw env owner av rest hinfo howner hrec hav]
        exact avatarLoop_all_none gw owner av _ env hm1 hm2 hm3 hm4
      · intro g1 g2 hm1 hm2 hm3 hm4 hsch
        refine ⟨?_, ?_, ?_⟩
        · intro hbad
          apply avatar_erc_route gw env owner av g1 g2 rest none hinfo howner hrec hav
            hm1 hm2 hm3 hm4 hsch
          exact ercBranch_comps_malformed gw owner av (lowerStr g1) g2 _ env hbad
        · intro c0 c1 addr tid ret tn hsplit haddr htok htw h721 hcall
          constructor
          · intro tokenOwner hown hne
            apply avatar_erc_route gw env owner av g1 g2 rest none hinfo howner hrec hav
              hm1 hm2 hm3 hm4 hsch
            rw [h721]
            exact ercBranch_721_mismatch gw owner av g2 c0 c1 addr tid ret tokenOwner tn
              _ env hsplit haddr htok htw hcall hown hne
          · intro ret2 hown hcall2
            constructor
            · intro hdec
              apply avatar_erc_route gw env owner av g1 g2 rest none hinfo howner hrec hav
                hm1 hm2 hm3 hm4 hsch
              rw [h721]
              exact ercBranch_721_decode_none gw owner av g2 c0 c1 addr tid ret ret2 tn
                _ env hsplit haddr htok htw hcall hown hcall2 hdec
            · intro mu hdec hnoipfs
              constructor
              · intro hfetch
                apply avatar_erc_route gw env owner av g1 g2 rest none hinfo howner hrec hav
                  hm1 hm2 hm3 hm4 hsch
                rw [h721]
                exact ercBranch_721_fetch_none gw owner av g2 c0 c1 addr tid ret ret2 mu tn
                  _ env hsplit haddr htok htw hcall hown hcall2 hdec hnoipfs hfetch
              · intro md hfetch
                constructor
                · intro hmd
                  apply avatar_erc_route gw env owner av g1 g2 rest none hinfo howner hrec
                    hav hm1 hm2 hm3 hm4 hsch
                  rw [h721]
                  exact ercBranch_721_image_missing gw owner av g2 c0 c1 addr tid ret ret2
                    mu tn md _ env hsplit haddr htok htw hcall hown hcall2 hdec hnoipfs
                    hfetch hmd
                · intro img hmd himg1 himg2 himg3
                  apply avatar_erc_route gw env owner av g1 g2 rest none hinfo howner hrec
                    hav hm1 hm2 hm3 hm4 hsch
                  rw [h721]
                  exact ercBranch_721_image_bad gw owner av g2 c0 c1 addr tid ret ret2 mu
                    img tn md _ env hsplit haddr htok htw hcall hown hcall2 hdec hnoipfs
                    hfetch hmd himg1 himg2 himg3
        · intro c0 c1 addr owPad tid balRet tn hsplit haddr htok htw h1155 hpad hcall hbal
          apply avatar_erc_route gw env owner av g1 g2 rest none hinfo howner hrec hav
            hm1 hm2 hm3 hm4 hsch
          rw [h1155]
          exact ercBranch_1155_zero gw owner av g2 c0 c1 addr owPad tid balRet tn
            _ env hsplit haddr htok htw hpad hcall hbal

/-- Witness for C1 at an account with no owner key. -/
theorem avatar_failures_unresolved_witness :
    avatar defaultGateway envMissingOwner = none :=
  (avatar_failures_unresolved defaultGateway envMissingOwner).2.2.1 rfl

end DotbitAvatar
